import Mathlib

/-!
Shallow embedding of the payment-webhook / provisioning subsystem of the
repository (Python, `src/back`).  Pure data is modelled by Lean structures,
the Firestore database by an explicit `Store` value threaded through every
operation, Python exceptions by `Except Err`, and external collaborators
(signature validation, Firebase Auth, Astron Members, ActiveCampaign, dub.co,
Fernet encryption, password generation, uuid) by an `Env` record of oracles.
Each definition carries a comment pointing at the source file and lines it
embeds.
-/

set_option maxRecDepth 8000

namespace R38

/-- Python exceptions that the embedded code raises or catches.
`valueError` models `ValueError`, `keyError` models `KeyError`,
`notFound` models the Firestore not-found error raised by `update()` on a
missing document, `emailExists` models `firebase_admin.auth.EmailAlreadyExistsError`,
and `external` models any other exception escaping an external call. -/
inductive Err where
  | valueError (msg : String)
  | keyError (key : String)
  | notFound (msg : String)
  | emailExists
  | external (msg : String)
deriving Repr, DecidableEq

/-- Models Python `str(e)` on an exception. -/
def errStr : Err → String
  | .valueError m => m
  | .keyError k => "KeyError: " ++ k
  | .notFound m => m
  | .emailExists => "EmailAlreadyExists"
  | .external m => m

/-- Python truthiness for an optional string: `None` and `""` are falsy. -/
def strTruthy : Option String → Option String
  | none => none
  | some s => if s = "" then none else some s

/-- Python `a or b` over optional strings (`None`/`""` falsy). -/
def pyOr (a b : Option String) : Option String :=
  match strTruthy a with
  | some s => some s
  | none => strTruthy b

/-- Association-list lookup, modelling `collection.document(k).get()`. -/
def lookupKey {α : Type} (l : List (String × α)) (k : String) : Option α :=
  match l with
  | [] => none
  | (k', v) :: rest => if k' = k then some v else lookupKey rest k

/-- Association-list insert-or-replace, modelling a Firestore `set()` /
merged `update()` at a document key. -/
def setKey {α : Type} (l : List (String × α)) (k : String) (v : α) :
    List (String × α) :=
  match l with
  | [] => [(k, v)]
  | (k', v') :: rest => if k' = k then (k, v) :: rest else (k', v') :: setKey rest k v

/-- A BTCPay `cryptoInfo[0]` element (btcpay_processor.py line 53). -/
structure CryptoInfoRec where
  address : Option String
  confirmations : Option Int
  txId : Option String
deriving Repr, DecidableEq

/-- A Stripe checkout session, `event['data']['object']`
(stripe_processor.py lines 18-77).  `metadata_subscription_id`'s outer
`Option` is presence of the `'metadata'` key (`session['metadata']` raises
`KeyError` when absent), the inner one presence of `'subscription_id'`. -/
structure StripeSession where
  id : String
  metadata_subscription_id : Option (Option String)
  payment_status : Option String
  amount_total : Option Int
  currency : Option String
  payment_intent : Option String
  customer_details_email : Option String
deriving Repr, DecidableEq

/-- A validated webhook event as the dict returned by `validate_webhook`
(webhook_validator.py).  Fields cover the keys the three processors read:
`id`/`type` (Stripe, dub, BTCPay), BTCPay invoice fields, and the Stripe
`data.object` session.  `amount_centavos` holds the integer result of
BTCPay's `int(float(invoice.get('amount', 0)) * 100)` conversion
(btcpay_processor.py line 63); the float parsing itself is abstracted. -/
structure Event where
  id : Option String
  type : Option String
  invoiceId : Option String
  metadata_subscriptionId : Option String
  orderId : Option String
  amount_centavos : Int
  currency : Option String
  paymentMethod : Option String
  crypto_first : Option CryptoInfoRec
  data_object : Option StripeSession
deriving Repr, DecidableEq

/-- `webhook_events` ledger document (WebhookEvent.py, and the dict created
at process_payment_webhook.py lines 93-102).  The stored raw `payload` copy
and the `id`/`idempotency_key` fields (both equal to the document key) are
not repeated in the record. -/
structure WebhookEventRec where
  provider : String
  event_type : Option String
  signature50 : String
  processed : Bool
  processed_at : Option Nat
  error : Option String
deriving Repr, DecidableEq

/-- Bitcoin payment details attached to a payment record
(btcpay_processor.py lines 76-83). -/
structure BtcDataRec where
  address : Option String
  confirmations : Int
  txid : Option String
  confirmed_at : Nat
deriving Repr, DecidableEq

/-- `payments` collection document (btcpay_processor.py lines 59-85,
stripe_processor.py lines 62-77).  `meta_a`/`meta_b` carry the two
`provider_metadata` entries (invoice_id/payment_method for BTCPay,
session_id/customer_email for Stripe). -/
structure PaymentRec where
  subscription_id : String
  customer_id : String
  amount : Int
  currency : String
  status : String
  payment_method : String
  payment_provider : String
  provider_payment_id : Option String
  meta_a : Option String
  meta_b : Option String
  btc_data : Option BtcDataRec
  processed_at : Nat
deriving Repr, DecidableEq

/-- `subscriptions` collection document (firestore_types.py SubscriptionDoc
plus the schemaless extra keys the handlers read: `customer_email`,
`customer_name`, `customer_phone` via `getattr`, `metadata.lead_id` and
`customerId` via `.get`).  Option fields model key absence. -/
structure SubscriptionRec where
  customer_id : String
  customer_email : String
  customer_name : Option String
  customer_phone : Option String
  product_id : String
  status : String
  amount_paid : Int
  currency : String
  payment_method : String
  payment_provider : String
  provider_subscription_id : Option String
  access_granted_at : Option Nat
  provisioning_status : Option String
  provisioning_error : Option String
  affiliate_data : Bool
  metadata_lead_id : Option String
  customerId_camel : Option String
deriving Repr, DecidableEq

/-- `customers` collection document (Customer.py / provisioning service). -/
structure CustomerRec where
  email : String
  name : String
  firebase_uid : Option String
  generated_password : Option String
  astron_member_id : Option String
  magic_login_url : Option String
  activecampaign_contact_id : Option String
  converted_lead_ids : List String
deriving Repr, DecidableEq

/-- `manual_verifications` collection document (btcpay_processor.py
lines 115-127, approve_verification.py, bulk_approve_verifications.py). -/
structure VerificationRec where
  email : String
  name : Option String
  upload_url : String
  status : String
  auto_generated : Bool
  customer_name : String
  customer_phone : String
  submitted_at : Nat
  reviewed_by : Option String
  reviewed_at : Option Nat
  notes : String
  subscription_created : Option String
  provisioning_error : Option String
  provisioning_failed_at : Option Nat
deriving Repr, DecidableEq

/-- `leads` collection document, the fields lead_conversion_service.py
reads and writes. -/
structure LeadRec where
  email : String
  source : String
  status : String
  requires_manual_verification : Bool
  provisioning_status : Option String
  provisioning_error : Option String
  converted_customer_id : Option String
  converted_subscription_id : Option String
deriving Repr, DecidableEq

/-- `products` collection document, the fields the provisioning service
reads (name, `astron_club_id`). -/
structure ProductRec where
  name : String
  astron_club_id : Option String
deriving Repr, DecidableEq

/-- The Firestore database together with the ambient clock and the
auto-id allocator.  `policyReads` counts reads of the
`settings/main` document so that the provisioning-policy toggle can be
modelled as a time-indexed stream (see `process_invoice_settled`).
`error_logs` and `admin_actions` record only the number of documents added
to those log collections. -/
structure Store where
  webhook_events : List (String × WebhookEventRec)
  subscriptions : List (String × SubscriptionRec)
  payments : List (String × PaymentRec)
  customers : List (String × CustomerRec)
  manual_verifications : List (String × VerificationRec)
  leads : List (String × LeadRec)
  products : List (String × ProductRec)
  error_logs : Nat
  admin_actions : Nat
  policyReads : Nat
  now : Nat
  nextId : Nat
deriving Repr, DecidableEq

/-- Firestore auto-generated document id (`collection.add` /
`collection.document()`), drawn from the store's id supply. -/
def freshDocId (st : Store) : String := "autoid_" ++ toString st.nextId

/-- External collaborators as oracles: webhook signature validation and
parsing (StripeService / BTCPayService / DubService `verify_webhook_signature`),
Firebase Auth, Astron Members, ActiveCampaign (`sync_customer_purchase`,
returning success and an optional contact id), dub.co sale tracking,
Fernet decrypt/encrypt (composed with the base64 codec of
customer_provisioning_service.py lines 202-214), the generated readable
password, and `uuid.uuid4()`. -/
structure Env where
  validate : String → String → String → Except Err Event
  firebase_create_user : String → String → Except Err String
  firebase_get_user_by_email : String → Except Err String
  firebase_update_user_password : String → String → Except Err Unit
  astron_add_user_to_club : String → String → Except Err Unit
  astron_create_user : String → String → String → String → Except Err String
  astron_magic_url : String → String → String → Except Err String
  ac_sync : String → String → String → String → String → Except Err (Bool × Option String)
  dub_track : String → Int → String → String → Except Err Bool
  fernet_decrypt : String → Except Err String
  fernet_encrypt : String → String
  gen_password : String
  uuid4 : String

/-- Modelled from the spec: `DocumentBase.update_doc` (DocumentBase.py is not
in the repository snapshot) merges the given fields into the stored document —
spec §3, records are "mutated only by webhook handlers and admin actions" —
and, like the Firestore `update()` call it wraps, fails on a missing document
(spec §7, NotFoundError). -/
def updateAt {α : Type} (l : List (String × α)) (k : String) (f : α → α)
    (what : String) : Except Err (List (String × α)) :=
  match lookupKey l k with
  | none => .error (.notFound (what ++ " not found: " ++ k))
  | some v => .ok (setKey l k (f v))

/-- Subscription.py lines 37-42: `activate()` updates the document with
`status := SubscriptionStatus.ACTIVE.value` ("active") and
`access_granted_at := timestamp_now()`, with no check of the current status. -/
def Subscription.activate (st : Store) (id : String) : Except Err Store :=
  match updateAt st.subscriptions id
      (fun s => { s with status := "active", access_granted_at := some st.now })
      "subscription" with
  | .error e => .error e
  | .ok subs => .ok { st with subscriptions := subs }

/-- WebhookEvent.py lines 37-48: `mark_processed(success, error)` updates the
ledger entry with `processed := True`, `processed_at := now` and the given
error; the `success` flag itself is not written. -/
def WebhookEvent.mark_processed (st : Store) (id : String) (error : Option String) :
    Except Err Store :=
  match updateAt st.webhook_events id
      (fun w => { w with processed := true, processed_at := some st.now, error := error })
      "webhook_event" with
  | .error e => .error e
  | .ok evs => .ok { st with webhook_events := evs }

/-- Result dict of `LeadConversionService.mark_lead_as_converted`; callers
read `requires_manual_verification` via `.get` with a falsy default, so
result dicts lacking the key are modelled with the field `false`. -/
structure LeadResult where
  success : Bool
  requires_manual_verification : Bool
  reason : String
deriving Repr, DecidableEq

/-- lead_conversion_service.py lines 162-225: the conversion tail of
`mark_lead_as_converted` once the lead document is resolved.  The
`customer_ref.update` on a missing customer raises and is caught by the
service's outer `except`, which logs to `error_logs` and returns an
"exception" result (lines 227-239). -/
def convertLead (st : Store) (subscription_id : String) (sub : SubscriptionRec)
    (lid : String) (lead : LeadRec) : LeadResult × Store :=
  if lead.source ≠ "checkout" then (⟨true, false, "not_checkout_lead"⟩, st)
  else if lead.status = "converted" then
    (⟨true, lead.requires_manual_verification, "already_converted"⟩, st)
  else
    let customer_id := strTruthy sub.customerId_camel
    let rmv := lead.requires_manual_verification
    let lead' := { lead with
      status := "converted",
      converted_customer_id := customer_id,
      converted_subscription_id := some subscription_id,
      provisioning_status :=
        if rmv then some "pending_admin_approval" else lead.provisioning_status }
    let st1 := { st with leads := setKey st.leads lid lead' }
    match customer_id with
    | none => (⟨true, rmv, "converted"⟩, st1)
    | some cid =>
      match lookupKey st1.customers cid with
      | none => (⟨false, false, "exception"⟩, { st1 with error_logs := st1.error_logs + 1 })
      | some c =>
        let c' := { c with converted_lead_ids :=
          if lid ∈ c.converted_lead_ids then c.converted_lead_ids
          else c.converted_lead_ids ++ [lid] }
        (⟨true, rmv, "converted"⟩, { st1 with customers := setKey st1.customers cid c' })

/-- lead_conversion_service.py lines 61-239: `mark_lead_as_converted`.
Resolves the lead by `subscription.metadata.lead_id`, falling back to a
search by the customer email over initiated checkout leads; note the
subscription's customer id is read from the camel-case `customerId` key
(lines 100, 186).  Catches every exception internally, so the embedded
function is total. -/
def mark_lead_as_converted (st : Store) (subscription_id : String) :
    LeadResult × Store :=
  match lookupKey st.subscriptions subscription_id with
  | none => (⟨false, false, "subscription_not_found"⟩, st)
  | some sub =>
    match strTruthy sub.metadata_lead_id with
    | none =>
      match strTruthy sub.customerId_camel with
      | none => (⟨true, false, "no_customer_id"⟩, st)
      | some customer_id =>
        match lookupKey st.customers customer_id with
        | none => (⟨false, false, "customer_not_found"⟩, st)
        | some c =>
          match strTruthy (some c.email) with
          | none => (⟨false, false, "no_email"⟩, st)
          | some email =>
            match (st.leads.filter (fun p =>
                p.2.email == email && p.2.source == "checkout"
                  && p.2.status == "initiated")).head? with
            | none => (⟨true, false, "no_checkout_lead"⟩, st)
            | some (lid, lead) => convertLead st subscription_id sub lid lead
    | some lid =>
      match lookupKey st.leads lid with
      | none => (⟨false, false, "lead_not_found"⟩, st)
      | some lead => convertLead st subscription_id sub lid lead

/-- lead_conversion_service.py lines 241-286:
`mark_lead_provisioning_complete`.  All failures are caught and logged; the
result dict is ignored by every caller, so only the store is returned. -/
def mark_lead_provisioning_complete (st : Store) (subscription_id : String) :
    Store :=
  match lookupKey st.subscriptions subscription_id with
  | none => st
  | some sub =>
    match strTruthy sub.metadata_lead_id with
    | none => st
    | some lid =>
      match lookupKey st.leads lid with
      | none => { st with error_logs := st.error_logs + 1 }
      | some lead =>
        let lead' := { lead with provisioning_status := some "completed",
                                 provisioning_error := none }
        { st with leads := setKey st.leads lid lead' }

/-- customer_provisioning_service.py lines 151-188: `_get_or_create_customer`.
Resolves the customer first by id, then by an email query, creating a fresh
document at `customer_id` otherwise; returns the id of the resolved
document. -/
def get_or_create_customer (st : Store) (customer_id email name : String) :
    String × Store :=
  match lookupKey st.customers customer_id with
  | some _ => (customer_id, st)
  | none =>
    match (st.customers.filter (fun p => p.2.email == email)).head? with
    | some (cid, _) => (cid, st)
    | none =>
      let c : CustomerRec := ⟨email, name, none, none, none, none, none, []⟩
      (customer_id, { st with customers := setKey st.customers customer_id c })

/-- customer_provisioning_service.py lines 209-219: the generation tail of
`_get_or_generate_password` — generate a readable password, encrypt, persist
on the customer document, return the plaintext. -/
def genNewPassword (env : Env) (st : Store) (cid : String) :
    Except Err String × Store :=
  let pw := env.gen_password
  let enc := env.fernet_encrypt pw
  match updateAt st.customers cid
      (fun c => { c with generated_password := some enc }) "customer" with
  | .error e => (.error e, st)
  | .ok cs => (.ok pw, { st with customers := cs })

/-- customer_provisioning_service.py lines 190-219: `_get_or_generate_password`.
A present (truthy) `generated_password` is decrypted and returned unchanged;
a decryption failure is logged and falls through to generation. -/
def get_or_generate_password (env : Env) (st : Store) (cid : String) :
    Except Err String × Store :=
  let existing := match lookupKey st.customers cid with
    | some c => strTruthy c.generated_password
    | none => none
  match existing with
  | some enc =>
    match env.fernet_decrypt enc with
    | .ok pw => (.ok pw, st)
    | .error _ => genNewPassword env st cid
  | none => genNewPassword env st cid

/-- customer_provisioning_service.py lines 221-256:
`_create_or_get_firebase_user`.  `EmailAlreadyExistsError` is treated as
success: the existing account's uid is fetched and reused, with a
best-effort password update whose failure is ignored (lines 246-250).  Any
other creation error is re-raised.  No Firestore document is touched. -/
def create_or_get_firebase_user (env : Env) (email password : String) :
    Except Err String :=
  match env.firebase_create_user email password with
  | .ok uid => .ok uid
  | .error .emailExists =>
    match env.firebase_get_user_by_email email with
    | .ok uid =>
      match env.firebase_update_user_password uid password with
      | _ => .ok uid
    | .error e => .error e
  | .error e => .error e

/-- customer_provisioning_service.py lines 258-310:
`_create_or_update_astron_account`.  A falsy club id returns `""`; an
existing (truthy) `astron_member_id` is re-attached via `add_user_to_club`
and reused; on attach failure or absence a new account is created, and any
failure of that creation (or of the follow-up customer update) is swallowed,
returning `""` (lines 307-310). -/
def create_or_update_astron_account (env : Env) (st : Store) (cid : String)
    (password : String) (club_id : Option String) : Except Err String × Store :=
  match strTruthy club_id with
  | none => (.ok "", st)
  | some club =>
    let existing := match lookupKey st.customers cid with
      | some c => strTruthy c.astron_member_id
      | none => none
    let tryCreate : Except Err String × Store :=
      match lookupKey st.customers cid with
      | none => (.ok "", st)
      | some c =>
        match env.astron_create_user c.email c.name password club with
        | .error _ => (.ok "", st)
        | .ok mid =>
          match updateAt st.customers cid
              (fun c0 => { c0 with astron_member_id := some mid }) "customer" with
          | .error _ => (.ok "", st)
          | .ok cs => (.ok mid, { st with customers := cs })
    match existing with
    | some aid =>
      match env.astron_add_user_to_club aid club with
      | .ok _ => (.ok aid, st)
      | .error _ => tryCreate
    | none => tryCreate

/-- customer_provisioning_service.py lines 312-334:
`_generate_magic_login_url`; a blank member id falls back to the static
login URL. -/
def generate_magic_login_url (env : Env) (astron_member_id email : String) :
    Except Err String :=
  if astron_member_id = "" then .ok "https://renato38.astronmembers.com.br/login"
  else env.astron_magic_url astron_member_id email "renato38"

/-- customer_provisioning_service.py lines 336-390: `_sync_activecampaign`.
The marshalling of entitlement fields into the ActiveCampaign call is
abstracted into the `ac_sync` oracle; the step's only durable effect is
storing a returned contact id on the customer, and every failure is
swallowed (lines 388-390). -/
def sync_activecampaign (env : Env) (st : Store) (cid : String)
    (email name product_name password magic_url : String) : Store :=
  match env.ac_sync email name product_name password magic_url with
  | .error _ => st
  | .ok (success, contact_id?) =>
    if success then
      match contact_id? with
      | some contact_id =>
        match updateAt st.customers cid
            (fun c => { c with activecampaign_contact_id := some contact_id })
            "customer" with
        | .error _ => st
        | .ok cs => { st with customers := cs }
      | none => st
    else st

/-- customer_provisioning_service.py lines 392-421:
`_record_affiliate_commission`: a dub.co tracking call whose outcome is
only logged; all failures are swallowed and no document is written. -/
def record_affiliate_commission (env : Env) (sub_id : String)
    (sub : SubscriptionRec) : Unit :=
  match env.dub_track sub.customer_id sub.amount_paid sub.currency sub_id with
  | _ => ()

/-- The result dict of a successful `provision_customer`
(customer_provisioning_service.py lines 132-138); the constant
`success: True` key is dropped. -/
structure ProvisionResult where
  customer_id : String
  firebase_uid : String
  astron_member_id : String
  magic_login_url : String
deriving Repr, DecidableEq

/-- customer_provisioning_service.py lines 74-138: the `try` block of
`provision_customer` — saga steps 1 to 8 in source order.  Step 3 reads the
customer's email from the document resolved in step 1; steps 6 and 7 are
advisory (their failures never escape); step 8 marks the subscription
completed. -/
def provisionSteps (env : Env) (st : Store) (subscription_id : String)
    (sub : SubscriptionRec) (product : ProductRec) :
    Except Err ProvisionResult × Store :=
  let step1 := get_or_create_customer st sub.customer_id sub.customer_email
      (sub.customer_name.getD "Customer")
  let cid := step1.1
  let st1 := step1.2
  match get_or_generate_password env st1 cid with
  | (.error e, st2) => (.error e, st2)
  | (.ok password, st2) =>
    match lookupKey st2.customers cid with
    | none => (.error (.notFound ("customer not found: " ++ cid)), st2)
    | some c =>
      match create_or_get_firebase_user env c.email password with
      | .error e => (.error e, st2)
      | .ok firebase_uid =>
        let upd : Except Err Store :=
          if (strTruthy c.firebase_uid).isNone then
            match updateAt st2.customers cid
                (fun c0 => { c0 with firebase_uid := some firebase_uid })
                "customer" with
            | .error e => .error e
            | .ok cs => .ok { st2 with customers := cs }
          else .ok st2
        match upd with
        | .error e => (.error e, st2)
        | .ok st3 =>
          match create_or_update_astron_account env st3 cid password
              product.astron_club_id with
          | (.error e, st4) => (.error e, st4)
          | (.ok astron_member_id, st4) =>
            match generate_magic_login_url env astron_member_id c.email with
            | .error e => (.error e, st4)
            | .ok magic_url =>
              match updateAt st4.customers cid
                  (fun c0 => { c0 with magic_login_url := some magic_url })
                  "customer" with
              | .error e => (.error e, st4)
              | .ok cs =>
                let st5 := { st4 with customers := cs }
                let st6 := sync_activecampaign env st5 cid c.email c.name
                    product.name password magic_url
                let _ := if sub.affiliate_data then
                    record_affiliate_commission env subscription_id sub else ()
                match updateAt st6.subscriptions subscription_id
                    (fun s => { s with access_granted_at := some st6.now,
                                       provisioning_status := some "completed" })
                    "subscription" with
                | .error e => (.error e, st6)
                | .ok subs =>
                  (.ok ⟨cid, firebase_uid, astron_member_id, magic_url⟩,
                   { st6 with subscriptions := subs })

/-- customer_provisioning_service.py lines 49-149: `provision_customer`.
Missing subscription or product raise `ValueError` before the `try` block;
any exception escaping the steps is recorded on the subscription as
`provisioning_status = 'failed'` with the error text and re-raised
(lines 140-149). -/
def provision_customer (env : Env) (st : Store) (subscription_id : String) :
    Except Err ProvisionResult × Store :=
  match lookupKey st.subscriptions subscription_id with
  | none => (.error (.valueError ("Subscription not found: " ++ subscription_id)), st)
  | some sub =>
    match lookupKey st.products sub.product_id with
    | none => (.error (.valueError ("Product not found: " ++ sub.product_id)), st)
    | some product =>
      match provisionSteps env st subscription_id sub product with
      | (.ok r, st') => (.ok r, st')
      | (.error e, st') =>
        match updateAt st'.subscriptions subscription_id
            (fun s => { s with provisioning_status := some "failed",
                               provisioning_error := some (errStr e) })
            "subscription" with
        | .error e2 => (.error e2, st')
        | .ok subs => (.error e, { st' with subscriptions := subs })

/-- lead_conversion_service.py lines 288-334: `mark_lead_provisioning_failed`. -/
def mark_lead_provisioning_failed (st : Store) (subscription_id : String)
    (error : String) : Store :=
  match lookupKey st.subscriptions subscription_id with
  | none => st
  | some sub =>
    match strTruthy sub.metadata_lead_id with
    | none => st
    | some lid =>
      match lookupKey st.leads lid with
      | none => { st with error_logs := st.error_logs + 1 }
      | some lead =>
        let lead' := { lead with provisioning_status := some "failed",
                                 provisioning_error := some error }
        { st with leads := setKey st.leads lid lead' }

/-- btcpay_processor.py lines 28-87: the part of `process_invoice_settled`
before the provisioning-toggle read — subscription activation, non-critical
lead conversion (whose `requires_manual_verification` flag pauses
provisioning), and payment-record creation.  Returns `should_provision`. -/
def settled_pre_toggle (st : Store) (ev : Event) (subscription_id : String) :
    Except Err Bool × Store :=
  match Subscription.activate st subscription_id with
  | .error e => (.error e, st)
  | .ok stA =>
    let lc := mark_lead_as_converted stA subscription_id
    let should_provision := ¬ lc.1.requires_manual_verification
    let stB := lc.2
    match lookupKey stB.subscriptions subscription_id with
    | none => (.error (.notFound ("subscription not found: " ++ subscription_id)), stB)
    | some sub =>
      let payment_id := "payment_" ++ subscription_id ++ "_" ++ toString stB.now
      let crypto := ev.crypto_first
      let payment : PaymentRec := {
        subscription_id := subscription_id
        customer_id := sub.customer_id
        amount := ev.amount_centavos
        currency := ev.currency.getD "BRL"
        status := "confirmed"
        payment_method := sub.payment_method
        payment_provider := "btcpayserver"
        provider_payment_id := ev.id
        meta_a := ev.id
        meta_b := ev.paymentMethod
        btc_data :=
          if sub.payment_method = "btc" then
            some { address := crypto.bind (·.address)
                   confirmations := (crypto.bind (·.confirmations)).getD 0
                   txid := crypto.bind (·.txId)
                   confirmed_at := stB.now }
          else none
        processed_at := stB.now }
      (.ok should_provision,
       { stB with payments := setKey stB.payments payment_id payment })

/-- btcpay_processor.py lines 102-166 and stripe_processor.py lines 94-158
(the two blocks are textually identical): the branch taken on the local
`auto_prov_enabled` snapshot.  Toggle off: create a pending auto-generated
manual verification unless any record with this `subscription_created`
already exists (the pre-check of lines 106-112).  Toggle on and
unpaused: run the orchestrator, marking the lead complete or failed, and
swallow provisioning failures (lines 134-164).  Otherwise skip. -/
def settled_toggle_branch (env : Env) (st : Store) (subscription_id : String)
    (auto_prov_enabled should_provision : Bool) : Store :=
  if ¬ auto_prov_enabled then
    let existing := (st.manual_verifications.filter
        (fun p => p.2.subscription_created == some subscription_id)).length
    if existing > 0 then st
    else
      let subDoc := lookupKey st.subscriptions subscription_id
      let vdata : VerificationRec := {
        email := (subDoc.map (·.customer_email)).getD ""
        name := none
        upload_url := ""
        status := "pending"
        auto_generated := true
        customer_name := (subDoc.bind (·.customer_name)).getD ""
        customer_phone := (subDoc.bind (·.customer_phone)).getD ""
        submitted_at := st.now
        reviewed_by := none
        reviewed_at := none
        notes := "Auto-generated - payment confirmed, awaiting manual approval (auto-provisioning toggle OFF)"
        subscription_created := some subscription_id
        provisioning_error := none
        provisioning_failed_at := none }
      { st with
        manual_verifications := setKey st.manual_verifications (freshDocId st) vdata,
        nextId := st.nextId + 1 }
  else if should_provision then
    match provision_customer env st subscription_id with
    | (.ok _, st') => mark_lead_provisioning_complete st' subscription_id
    | (.error e, st') => mark_lead_provisioning_failed st' subscription_id (errStr e)
  else st

/-- btcpay_processor.py lines 12-170: `process_invoice_settled`.  The
subscription id comes from `metadata.subscriptionId or orderId` (line 21);
a falsy id returns without effect.  The `settings/main` read of lines 89-98
is modelled by the time-indexed stream `pol` sampled at the store's read
counter, `auto_prov_enabled` being the local snapshot
(`.get('auto_provisioning_enabled', False)` and the missing-document case
both default to `false`). -/
def process_invoice_settled (env : Env) (pol : Nat → Option Bool) (st : Store)
    (ev : Event) : Except Err Unit × Store :=
  match pyOr ev.metadata_subscriptionId ev.orderId with
  | none => (.ok (), st)
  | some subscription_id =>
    match settled_pre_toggle st ev subscription_id with
    | (.error e, st1) => (.error e, st1)
    | (.ok should_provision, st1) =>
      let auto_prov_enabled := (pol st1.policyReads).getD false
      let st2 := { st1 with policyReads := st1.policyReads + 1 }
      (.ok (), settled_toggle_branch env st2 subscription_id auto_prov_enabled
         should_provision)

/-- stripe_processor.py lines 38-79: the paid portion of
`process_checkout_completed` before the toggle read — activation, lead
conversion, payment-record creation.  Returns `should_provision`. -/
def checkout_paid_pre_toggle (st : Store) (session : StripeSession)
    (subscription_id : String) : Except Err Bool × Store :=
  match Subscription.activate st subscription_id with
  | .error e => (.error e, st)
  | .ok stA =>
    let lc := mark_lead_as_converted stA subscription_id
    let should_provision := ¬ lc.1.requires_manual_verification
    let stB := lc.2
    match lookupKey stB.subscriptions subscription_id with
    | none => (.error (.notFound ("subscription not found: " ++ subscription_id)), stB)
    | some sub =>
      let payment_id := "payment_" ++ subscription_id ++ "_" ++ toString stB.now
      let payment : PaymentRec := {
        subscription_id := subscription_id
        customer_id := sub.customer_id
        amount := session.amount_total.getD 0
        currency := (session.currency.getD "brl").toUpper
        status := "confirmed"
        payment_method := sub.payment_method
        payment_provider := "stripe"
        provider_payment_id := session.payment_intent
        meta_a := some session.id
        meta_b := session.customer_details_email
        btc_data := none
        processed_at := stB.now }
      (.ok should_provision,
       { stB with payments := setKey stB.payments payment_id payment })

/-- stripe_processor.py lines 12-162: `process_checkout_completed`.
`session = event['data']['object']` and `session['metadata']` raise
`KeyError` when the keys are absent; a falsy subscription id returns
without effect; the provider session id is stored before the paid check
(lines 32-34); only a `payment_status == 'paid'` session activates and
proceeds to the toggle. -/
def process_checkout_completed (env : Env) (pol : Nat → Option Bool)
    (st : Store) (ev : Event) : Except Err Unit × Store :=
  match ev.data_object with
  | none => (.error (.keyError "data"), st)
  | some session =>
    match session.metadata_subscription_id with
    | none => (.error (.keyError "metadata"), st)
    | some sid? =>
      match strTruthy sid? with
      | none => (.ok (), st)
      | some subscription_id =>
        match updateAt st.subscriptions subscription_id
            (fun s => { s with provider_subscription_id := some session.id })
            "subscription" with
        | .error e => (.error e, st)
        | .ok subs =>
          let st0 := { st with subscriptions := subs }
          if session.payment_status == some "paid" then
            match checkout_paid_pre_toggle st0 session subscription_id with
            | (.error e, st1) => (.error e, st1)
            | (.ok should_provision, st1) =>
              let auto_prov_enabled := (pol st1.policyReads).getD false
              let st2 := { st1 with policyReads := st1.policyReads + 1 }
              (.ok (), settled_toggle_branch env st2 subscription_id
                 auto_prov_enabled should_provision)
          else (.ok (), st0)

/-- stripe_processor.py lines 165-177: `process_payment_intent_failed` reads
`event['data']['object']` and only logs; no document is written. -/
def process_payment_intent_failed (st : Store) (ev : Event) :
    Except Err Unit × Store :=
  match ev.data_object with
  | none => (.error (.keyError "data"), st)
  | some _ => (.ok (), st)

/-- stripe_processor.py lines 180-207: `process_stripe_webhook` routes on
`event['type']` (a `KeyError` when absent); unhandled types are logged and
succeed. -/
def process_stripe_webhook (env : Env) (pol : Nat → Option Bool) (st : Store)
    (ev : Event) : Except Err Unit × Store :=
  match ev.type with
  | none => (.error (.keyError "type"), st)
  | some t =>
    if t = "checkout.session.completed" then process_checkout_completed env pol st ev
    else if t = "payment_intent.failed" then process_payment_intent_failed st ev
    else (.ok (), st)

/-- btcpay_processor.py lines 173-224: `process_btcpay_webhook` routes on
`event.get('type')`; `InvoiceExpired` and `InvoiceInvalid` only log, and
unhandled types (including a missing one) are logged and succeed. -/
def process_btcpay_webhook (env : Env) (pol : Nat → Option Bool) (st : Store)
    (ev : Event) : Except Err Unit × Store :=
  match ev.type with
  | some t =>
    if t = "InvoiceSettled" then process_invoice_settled env pol st ev
    else (.ok (), st)
  | none => (.ok (), st)

/-- dub_processor.py lines 12-246: `process_dub_webhook` and its six
sub-handlers read event fields via `.get` and only log; no document is
written and no exception escapes. -/
def process_dub_webhook (st : Store) (_ev : Event) : Except Err Unit × Store :=
  (.ok (), st)

/-- The inbound HTTP request of process_payment_webhook.py: the `provider`
query parameter, the raw body, and the four signature headers the endpoint
reads (lines 32-50). -/
structure Request where
  provider : Option String
  payload : String
  hStripeSignature : Option String
  hBTCPaySig : Option String
  hBTCPaySig2 : Option String
  hDubSignature : Option String
deriving Repr, DecidableEq

/-- The JSON body of a process_payment_webhook response: an error object,
`{'already_processed': True}`, or `{'success': True}`. -/
inductive RespBody where
  | errMsg (msg : String)
  | alreadyProcessed
  | success
deriving Repr, DecidableEq

/-- process_payment_webhook.py lines 66-73: the idempotency key — the native
event id for Stripe and dub (`event['id']`, a `KeyError` when absent), and
`invoiceId_type` with `'unknown'` defaults for BTCPay. -/
def derive_event_id (provider : String) (ev : Event) : Except Err String :=
  if provider = "stripe" ∨ provider = "dub" then
    match ev.id with
    | some i => .ok i
    | none => .error (.keyError "id")
  else
    .ok ((ev.invoiceId.getD "unknown") ++ "_" ++ (ev.type.getD "unknown"))

/-- process_payment_webhook.py lines 104-111: dispatch the validated event
to the provider's processor. -/
def dispatch_provider (env : Env) (pol : Nat → Option Bool) (provider : String)
    (st : Store) (ev : Event) : Except Err Unit × Store :=
  if provider = "stripe" then process_stripe_webhook env pol st ev
  else if provider = "dub" then process_dub_webhook st ev
  else process_btcpay_webhook env pol st ev

/-- process_payment_webhook.py lines 78-123: `process_with_idempotency`.
An existing ledger entry with `processed` set short-circuits with the
duplicate result and no writes; otherwise the entry is (re)created with
`processed := False` and, per spec §4.2, the entry creation and the
`mark_processed` update are durable direct writes that survive a handler
exception (DocumentBase.py is not in the snapshot; the transaction protects
only the ledger read-check-create).  A handler exception is recorded on the
entry (`processed := True` with the error text) and re-raised. -/
def process_with_idempotency (env : Env) (pol : Nat → Option Bool)
    (provider : String) (ev : Event) (event_id signature : String)
    (st : Store) : Except Err RespBody × Store :=
  let already := match lookupKey st.webhook_events event_id with
    | some r => r.processed
    | none => false
  if already then (.ok .alreadyProcessed, st)
  else
    let entry : WebhookEventRec :=
      ⟨provider, ev.type, signature.take 50, false, none, none⟩
    let st1 := { st with webhook_events := setKey st.webhook_events event_id entry }
    match dispatch_provider env pol provider st1 ev with
    | (.ok _, st2) =>
      match WebhookEvent.mark_processed st2 event_id none with
      | .error e => (.error e, st2)
      | .ok st3 => (.ok .success, st3)
    | (.error e, st2) =>
      match WebhookEvent.mark_processed st2 event_id (some (errStr e)) with
      | .error e2 => (.error e2, st2)
      | .ok st3 => (.error e, st3)

/-- process_payment_webhook.py lines 44-53: per-provider signature-header
extraction; `none` models the invalid-provider branch, `some none` a
missing (or falsy) header. -/
def extract_signature (req : Request) (provider : String) :
    Option (Option String) :=
  if provider = "stripe" then some (strTruthy req.hStripeSignature)
  else if provider = "btcpay" ∨ provider = "btcpayserver" then
    some (pyOr req.hBTCPaySig req.hBTCPaySig2)
  else if provider = "dub" then some (strTruthy req.hDubSignature)
  else none

/-- process_payment_webhook.py lines 21-134: the endpoint body.  Envelope
errors: missing/invalid provider and empty payload give 400; a missing
signature header gives 401; a `ValueError` from validation gives 401 with
no ledger write; any other escaping exception (including a handler
exception re-raised by `process_with_idempotency`) is caught by the outer
handler and gives 500 (lines 132-134). -/
def process_payment_webhook (env : Env) (pol : Nat → Option Bool)
    (req : Request) (st : Store) : (RespBody × Nat) × Store :=
  match strTruthy req.provider with
  | none => ((.errMsg "Provider parameter required", 400), st)
  | some provider =>
    if req.payload = "" then ((.errMsg "Empty payload", 400), st)
    else
      match extract_signature req provider with
      | none => ((.errMsg "Invalid provider", 400), st)
      | some none => ((.errMsg "Missing signature", 401), st)
      | some (some signature) =>
        match env.validate provider req.payload signature with
        | .error (.valueError _) => ((.errMsg "Invalid signature", 401), st)
        | .error _ => ((.errMsg "Internal server error", 500), st)
        | .ok ev =>
          match derive_event_id provider ev with
          | .error _ => ((.errMsg "Internal server error", 500), st)
          | .ok event_id =>
            match process_with_idempotency env pol provider ev event_id signature st with
            | (.ok body, st') => ((body, 200), st')
            | (.error _, st') => ((.errMsg "Internal server error", 500), st')

/-- `https_fn.HttpsError` classes used by the admin endpoints. -/
inductive HttpsErr where
  | notFoundE (msg : String)
  | failedPrecondition (msg : String)
  | invalidArgument (msg : String)
  | internalE (msg : String)
deriving Repr, DecidableEq

/-- The result dict of a successful `approve_manual_verification`
(approve_verification.py lines 187-193); the constant success flag and
message are dropped. -/
structure ApproveResult where
  subscription_id : String
  customer_id : String
  firebase_uid : String
deriving Repr, DecidableEq

/-- approve_verification.py lines 119-151: the subscription dict for the
R$100 onboarding special (`customer_id` is the fresh `uuid.uuid4()`,
`customer_name` is read from the verification's absent `name` key; the
entitlements and audit sub-objects of the dict are not part of the
embedded record). -/
def approveSubData (env : Env) (v : VerificationRec) : SubscriptionRec := {
  customer_id := env.uuid4
  customer_email := v.email
  customer_name := v.name
  customer_phone := none
  product_id := "onboarding-special"
  status := "payment_pending"
  amount_paid := 10000
  currency := "BRL"
  payment_method := "btc"
  payment_provider := "manual"
  provider_subscription_id := none
  access_granted_at := none
  provisioning_status := none
  provisioning_error := none
  affiliate_data := false
  metadata_lead_id := none
  customerId_camel := none }

/-- approve_verification.py lines 104-156: the store state after the
verification is marked approved and the brand-new subscription document is
created at the fresh auto id (the approval update does not touch the id
allocator, so the fresh id equals `freshDocId st`). -/
def approveMidStore (env : Env) (st : Store) (verification_id : String)
    (v : VerificationRec) (admin_notes user_email : String) : Store :=
  { st with
    manual_verifications := setKey st.manual_verifications verification_id
      { v with status := "approved", reviewed_by := some user_email,
               reviewed_at := some st.now, notes := admin_notes },
    subscriptions := setKey st.subscriptions (freshDocId st) (approveSubData env v),
    nextId := st.nextId + 1 }

/-- approve_verification.py lines 71-202: `approve_manual_verification`
after the authentication/admin gate of lines 43-69 (which consults Firebase
Auth, outside the store; `user_email` is the authenticated admin).
A falsy `verificationId` is an invalid-argument error, a missing document
not-found, a non-pending status failed-precondition.  The verification is
marked approved (lines 104-110), then a brand-new subscription for the
R$100 onboarding special is created at a fresh auto id with a fresh uuid4
customer id (lines 114-156), the orchestrator runs on that new
subscription (lines 160-162), and only then is `subscription_created`
overwritten with the new id (lines 164-167) and the admin action logged.
Any exception in this region surfaces as an internal error
(lines 197-202). -/
def approve_manual_verification (env : Env) (st : Store)
    (verification_id? : Option String) (admin_notes user_email : String) :
    Except HttpsErr ApproveResult × Store :=
  match strTruthy verification_id? with
  | none => (.error (.invalidArgument "verificationId is required"), st)
  | some verification_id =>
    match lookupKey st.manual_verifications verification_id with
    | none =>
      (.error (.notFoundE ("Verification not found: " ++ verification_id)), st)
    | some v =>
      if v.status ≠ "pending" then
        (.error (.failedPrecondition ("Verification already " ++ v.status)), st)
      else
        let subscription_id := freshDocId st
        let st2 := approveMidStore env st verification_id v admin_notes user_email
        match provision_customer env st2 subscription_id with
        | (.error e, st3) =>
          (.error (.internalE ("Failed to approve verification: " ++ errStr e)), st3)
        | (.ok pr, st3) =>
          match updateAt st3.manual_verifications verification_id
              (fun v0 => { v0 with subscription_created := some subscription_id })
              "verification" with
          | .error e2 =>
            (.error (.internalE ("Failed to approve verification: " ++ errStr e2)), st3)
          | .ok mvs =>
            let st4 := { st3 with manual_verifications := mvs,
                                  admin_actions := st3.admin_actions + 1 }
            (.ok ⟨subscription_id, pr.customer_id, pr.firebase_uid⟩, st4)

/-- One entry of the bulk-approval `errors` list
(bulk_approve_verifications.py lines 112-116, 147-151). -/
structure BulkItemErr where
  verification_id : String
  email : String
  error : String
deriving Repr, DecidableEq

/-- The aggregate bulk-approval response
(bulk_approve_verifications.py lines 172-178); the message is dropped. -/
structure BulkResult where
  success_count : Nat
  fail_count : Nat
  total_processed : Nat
  errors : List BulkItemErr
deriving Repr, DecidableEq

/-- bulk_approve_verifications.py lines 99-152: one iteration of the bulk
loop.  A falsy `subscription_created` counts as a failure (lines 106-118);
a provisioning failure is caught, the error recorded best-effort on the
verification without touching its status (lines 134-152), and iteration
continues; a success marks the verification approved (lines 120-132).  The
accumulator carries (success_count, fail_count, errors, store). -/
def bulk_item_step (env : Env) (user_email : String)
    (acc : Nat × Nat × List BulkItemErr × Store)
    (item : String × VerificationRec) :
    Nat × Nat × List BulkItemErr × Store :=
  let succ := acc.1
  let fail := acc.2.1
  let errs := acc.2.2.1
  let st := acc.2.2.2
  let vid := item.1
  let vdata := item.2
  match strTruthy vdata.subscription_created with
  | none =>
    (succ, fail + 1,
     errs ++ [⟨vid, vdata.email, "No subscription_id found for verification " ++ vid⟩],
     st)
  | some subscription_id =>
    match provision_customer env st subscription_id with
    | (.ok _, st1) =>
      match updateAt st1.manual_verifications vid
          (fun v => { v with status := "approved", reviewed_by := some user_email,
                             reviewed_at := some st1.now,
                             notes := "Bulk approved by " ++ user_email })
          "verification" with
      | .error e =>
        (succ, fail + 1, errs ++ [⟨vid, vdata.email, errStr e⟩], st1)
      | .ok mvs => (succ + 1, fail, errs, { st1 with manual_verifications := mvs })
    | (.error e, st1) =>
      let st2 := match updateAt st1.manual_verifications vid
          (fun v => { v with provisioning_error := some (errStr e),
                             provisioning_failed_at := some st1.now })
          "verification" with
        | .error _ => st1
        | .ok mvs => { st1 with manual_verifications := mvs }
      (succ, fail + 1, errs ++ [⟨vid, vdata.email, errStr e⟩], st2)

/-- bulk_approve_verifications.py lines 70-78: the snapshot query of all
pending auto-generated verifications. -/
def pendingAutoOf (st : Store) : List (String × VerificationRec) :=
  st.manual_verifications.filter
    (fun p => p.2.status == "pending" && p.2.auto_generated)

/-- bulk_approve_verifications.py lines 67-187:
`bulk_approve_auto_generated_verifications` after the admin gate.  The
pending auto-generated verifications are snapshotted (lines 70-78), each is
processed by `bulk_item_step`, and an admin action is logged before the
aggregate response is returned. -/
def bulk_approve_auto_generated_verifications (env : Env) (st : Store)
    (user_email : String) : BulkResult × Store :=
  let verifications := pendingAutoOf st
  if verifications.length = 0 then (⟨0, 0, 0, []⟩, st)
  else
    let out := verifications.foldl (bulk_item_step env user_email) (0, 0, [], st)
    (⟨out.1, out.2.1, verifications.length, out.2.2.1⟩,
     { out.2.2.2 with admin_actions := out.2.2.2.admin_actions + 1 })

theorem lookupKey_setKey_self {α : Type} (l : List (String × α)) (k : String)
    (v : α) : lookupKey (setKey l k v) k = some v := by
  induction l with
  | nil => simp [setKey, lookupKey]
  | cons p rest ih => cases p with
    | mk k' v' =>
      by_cases h : k' = k
      · simp [setKey, lookupKey, h]
      · simp [setKey, lookupKey, h, ih]

theorem lookupKey_setKey_ne {α : Type} (l : List (String × α)) (k k' : String)
    (v : α) (h : k' ≠ k) : lookupKey (setKey l k v) k' = lookupKey l k' := by
  induction l with
  | nil => simp [setKey, lookupKey, Ne.symm h]
  | cons p rest ih => cases p with
    | mk k0 v0 =>
      by_cases h0 : k0 = k
      · subst h0
        simp [setKey, lookupKey, Ne.symm h]
      · simp [setKey, lookupKey, h0, ih]

/-- The store components preserved by every operation between subscription
activation and the provisioning orchestrator: the webhook ledger, the
manual-verification queue, and the settings-read counter. -/
def Frame3 (st st' : Store) : Prop :=
  st'.webhook_events = st.webhook_events ∧
  st'.manual_verifications = st.manual_verifications ∧
  st'.policyReads = st.policyReads

theorem Frame3.refl (st : Store) : Frame3 st st := ⟨rfl, rfl, rfl⟩

theorem Frame3.trans {a b c : Store} (h1 : Frame3 a b) (h2 : Frame3 b c) :
    Frame3 a c :=
  ⟨h2.1.trans h1.1, h2.2.1.trans h1.2.1, h2.2.2.trans h1.2.2⟩

theorem activate_frame3 (st : Store) (id : String) (st' : Store)
    (h : Subscription.activate st id = .ok st') : Frame3 st st' := by
  unfold Subscription.activate updateAt at h
  repeat' split at h
  all_goals first
    | exact Except.noConfusion h
    | (cases h; exact ⟨rfl, rfl, rfl⟩)

theorem convertLead_frame3 (st : Store) (sid : String) (sub : SubscriptionRec)
    (lid : String) (lead : LeadRec) :
    Frame3 st (convertLead st sid sub lid lead).2 := by
  simp only [convertLead]
  repeat' split
  all_goals exact ⟨rfl, rfl, rfl⟩

theorem mark_lead_as_converted_frame3 (st : Store) (sid : String) :
    Frame3 st (mark_lead_as_converted st sid).2 := by
  simp only [mark_lead_as_converted]
  repeat' split
  all_goals first
    | exact convertLead_frame3 ..
    | exact ⟨rfl, rfl, rfl⟩

theorem mark_lead_provisioning_complete_frame3 (st : Store) (sid : String) :
    Frame3 st (mark_lead_provisioning_complete st sid) := by
  simp only [mark_lead_provisioning_complete]
  repeat' split
  all_goals exact ⟨rfl, rfl, rfl⟩

theorem mark_lead_provisioning_failed_frame3 (st : Store) (sid e : String) :
    Frame3 st (mark_lead_provisioning_failed st sid e) := by
  simp only [mark_lead_provisioning_failed]
  repeat' split
  all_goals exact ⟨rfl, rfl, rfl⟩

theorem get_or_create_customer_frame3 (st : Store) (a b c : String) :
    Frame3 st (get_or_create_customer st a b c).2 := by
  simp only [get_or_create_customer]
  repeat' split
  all_goals exact ⟨rfl, rfl, rfl⟩

theorem genNewPassword_frame3 (env : Env) (st : Store) (cid : String) :
    Frame3 st (genNewPassword env st cid).2 := by
  simp only [genNewPassword, updateAt]
  repeat' split
  all_goals exact ⟨rfl, rfl, rfl⟩

theorem get_or_generate_password_frame3 (env : Env) (st : Store) (cid : String) :
    Frame3 st (get_or_generate_password env st cid).2 := by
  simp only [get_or_generate_password]
  repeat' split
  all_goals first
    | exact genNewPassword_frame3 ..
    | exact ⟨rfl, rfl, rfl⟩

theorem create_or_update_astron_account_frame3 (env : Env) (st : Store)
    (cid password : String) (club_id : Option String) :
    Frame3 st (create_or_update_astron_account env st cid password club_id).2 := by
  simp only [create_or_update_astron_account, updateAt]
  repeat' split
  all_goals exact ⟨rfl, rfl, rfl⟩

theorem sync_activecampaign_frame3 (env : Env) (st : Store)
    (cid a b c d e : String) :
    Frame3 st (sync_activecampaign env st cid a b c d e) := by
  simp only [sync_activecampaign, updateAt]
  repeat' split
  all_goals exact ⟨rfl, rfl, rfl⟩

theorem provisionSteps_frame3 (env : Env) (st : Store) (sid : String)
    (sub : SubscriptionRec) (product : ProductRec) :
    Frame3 st (provisionSteps env st sid sub product).2 := by
  simp only [provisionSteps]
  rcases hA : get_or_create_customer st sub.customer_id sub.customer_email
      (sub.customer_name.getD "Customer") with ⟨cid, st1⟩
  have f1 : Frame3 st st1 := by
    have := get_or_create_customer_frame3 st sub.customer_id sub.customer_email
      (sub.customer_name.getD "Customer")
    rwa [hA] at this
  dsimp only
  rcases hB : get_or_generate_password env st1 cid with ⟨r2, st2⟩
  have f2 : Frame3 st st2 := by
    have := get_or_generate_password_frame3 env st1 cid
    rw [hB] at this
    exact f1.trans this
  rcases r2 with e | password
  · exact f2
  · dsimp only
    rcases hC : lookupKey st2.customers cid with _ | c
    · exact f2
    · dsimp only
      rcases create_or_get_firebase_user env c.email password with e | firebase_uid

      · exact f2
      · dsimp only
        rcases hD : (if (strTruthy c.firebase_uid).isNone then
            match updateAt st2.customers cid
                (fun c0 => { c0 with firebase_uid := some firebase_uid })
                "customer" with
            | .error e => .error e
            | .ok cs => .ok { st2 with customers := cs }
          else .ok st2 : Except Err Store) with e | st3
        · exact f2
        · have f3 : Frame3 st st3 := by
            split at hD
            · revert hD
              unfold updateAt
              repeat' split
              all_goals intro hD
              all_goals first
                | exact Except.noConfusion hD
                | (cases hD; exact f2.trans ⟨rfl, rfl, rfl⟩)
            · cases hD; exact f2
          dsimp only
          rcases hE : create_or_update_astron_account env st3 cid password
              product.astron_club_id with ⟨r4, st4⟩
          have f4 : Frame3 st st4 := by
            have := create_or_update_astron_account_frame3 env st3 cid password
              product.astron_club_id
            rw [hE] at this
            exact f3.trans this
          rcases r4 with e | astron_member_id
          · exact f4
          · dsimp only
            rcases generate_magic_login_url env astron_member_id c.email with e | magic_url
            · exact f4
            · dsimp only
              rcases hF : updateAt st4.customers cid
                  (fun c0 => { c0 with magic_login_url := some magic_url })
                  "customer" with e | cs
              · exact f4
              · dsimp only
                have f5 : Frame3 st ({ st4 with customers := cs } : Store) :=
                  f4.trans ⟨rfl, rfl, rfl⟩
                have f6 : Frame3 st (sync_activecampaign env
                    { st4 with customers := cs } cid c.email c.name
                    product.name password magic_url) :=
                  f5.trans (sync_activecampaign_frame3 ..)
                rcases hG : updateAt (sync_activecampaign env
                    { st4 with customers := cs } cid c.email c.name
                    product.name password magic_url).subscriptions sid
                    (fun s => { s with
                      access_granted_at := some (sync_activecampaign env
                        { st4 with customers := cs } cid c.email c.name
                        product.name password magic_url).now,
                      provisioning_status := some "completed" })
                    "subscription" with e | subs
                · exact f6
                · exact f6.trans ⟨rfl, rfl, rfl⟩

theorem provision_customer_frame3 (env : Env) (st : Store) (sid : String) :
    Frame3 st (provision_customer env st sid).2 := by
  simp only [provision_customer]
  rcases lookupKey st.subscriptions sid with _ | sub
  · exact ⟨rfl, rfl, rfl⟩
  · dsimp only
    rcases lookupKey st.products sub.product_id with _ | product
    · exact ⟨rfl, rfl, rfl⟩
    · dsimp only
      rcases hS : provisionSteps env st sid sub product with ⟨r, st'⟩
      have fS : Frame3 st st' := by
        have := provisionSteps_frame3 env st sid sub product
        rwa [hS] at this
      rcases r with e | r
      · dsimp only
        rcases updateAt st'.subscriptions sid
            (fun s => { s with provisioning_status := some "failed",
                               provisioning_error := some (errStr e) })
            "subscription" with e2 | subs
        · exact fS
        · exact fS.trans ⟨rfl, rfl, rfl⟩
      · exact fS

theorem settled_pre_toggle_frame3 (st : Store) (ev : Event) (sid : String) :
    Frame3 st (settled_pre_toggle st ev sid).2 := by
  simp only [settled_pre_toggle]
  rcases hA : Subscription.activate st sid with e | stA
  · exact ⟨rfl, rfl, rfl⟩
  · dsimp only
    have fA : Frame3 st stA := activate_frame3 st sid stA hA
    rcases hB : mark_lead_as_converted stA sid with ⟨lr, stB⟩
    have fB : Frame3 st stB := by
      have := mark_lead_as_converted_frame3 stA sid
      rw [hB] at this
      exact fA.trans this
    dsimp only
    rcases lookupKey stB.subscriptions sid with _ | sub
    · exact fB
    · exact fB.trans ⟨rfl, rfl, rfl⟩

theorem checkout_paid_pre_toggle_frame3 (st : Store) (session : StripeSession)
    (sid : String) : Frame3 st (checkout_paid_pre_toggle st session sid).2 := by
  simp only [checkout_paid_pre_toggle]
  rcases hA : Subscription.activate st sid with e | stA
  · exact ⟨rfl, rfl, rfl⟩
  · dsimp only
    have fA : Frame3 st stA := activate_frame3 st sid stA hA
    rcases hB : mark_lead_as_converted stA sid with ⟨lr, stB⟩
    have fB : Frame3 st stB := by
      have := mark_lead_as_converted_frame3 stA sid
      rw [hB] at this
      exact fA.trans this
    dsimp only
    rcases lookupKey stB.subscriptions sid with _ | sub
    · exact fB
    · exact fB.trans ⟨rfl, rfl, rfl⟩

/-- Preservation of the webhook ledger by everything a dispatched handler
does: no business handler writes `webhook_events`. -/
def Frame1 (st st' : Store) : Prop := st'.webhook_events = st.webhook_events

theorem settled_toggle_branch_frame1 (env : Env) (st : Store) (sid : String)
    (a b : Bool) : Frame1 st (settled_toggle_branch env st sid a b) := by
  simp only [settled_toggle_branch]
  split
  · split
    · exact rfl
    · exact rfl
  · split
    · rcases hP : provision_customer env st sid with ⟨r, st'⟩
      have fP := provision_customer_frame3 env st sid
      rw [hP] at fP
      rcases r with e | r
      · dsimp only
        exact ((mark_lead_provisioning_failed_frame3 st' sid (errStr e)).1).trans fP.1
      · dsimp only
        exact ((mark_lead_provisioning_complete_frame3 st' sid).1).trans fP.1
    · exact rfl

theorem process_invoice_settled_frame1 (env : Env) (pol : Nat → Option Bool)
    (st : Store) (ev : Event) :
    Frame1 st (process_invoice_settled env pol st ev).2 := by
  simp only [process_invoice_settled]
  rcases pyOr ev.metadata_subscriptionId ev.orderId with _ | sid
  · exact rfl
  · dsimp only
    rcases hA : settled_pre_toggle st ev sid with ⟨r, st1⟩
    have f1 := settled_pre_toggle_frame3 st ev sid
    rw [hA] at f1
    rcases r with e | sp
    · exact f1.1
    · dsimp only
      exact (settled_toggle_branch_frame1 env _ sid _ sp).trans f1.1

theorem process_checkout_completed_frame1 (env : Env) (pol : Nat → Option Bool)
    (st : Store) (ev : Event) :
    Frame1 st (process_checkout_completed env pol st ev).2 := by
  simp only [process_checkout_completed]
  rcases ev.data_object with _ | session
  · exact rfl
  · dsimp only
    rcases session.metadata_subscription_id with _ | s0
    · exact rfl
    · dsimp only
      rcases strTruthy s0 with _ | sid
      · exact rfl
      · dsimp only
        rcases hU : updateAt st.subscriptions sid
            (fun s => { s with provider_subscription_id := some session.id })
            "subscription" with e | subs
        · exact rfl
        · dsimp only
          split
          · rcases hB : checkout_paid_pre_toggle
                { st with subscriptions := subs } session sid with ⟨r, st1⟩
            have f1 := checkout_paid_pre_toggle_frame3
                ({ st with subscriptions := subs }) session sid
            rw [hB] at f1
            rcases r with e | sp
            · exact f1.1
            · dsimp only
              exact (settled_toggle_branch_frame1 env _ sid _ sp).trans f1.1
          · exact rfl

theorem process_stripe_webhook_frame1 (env : Env) (pol : Nat → Option Bool)
    (st : Store) (ev : Event) :
    Frame1 st (process_stripe_webhook env pol st ev).2 := by
  simp only [process_stripe_webhook, process_payment_intent_failed]
  repeat' split
  all_goals first
    | exact process_checkout_completed_frame1 ..
    | exact rfl

theorem process_btcpay_webhook_frame1 (env : Env) (pol : Nat → Option Bool)
    (st : Store) (ev : Event) :
    Frame1 st (process_btcpay_webhook env pol st ev).2 := by
  simp only [process_btcpay_webhook]
  repeat' split
  all_goals first
    | exact process_invoice_settled_frame1 ..
    | exact rfl

theorem dispatch_provider_frame1 (env : Env) (pol : Nat → Option Bool)
    (provider : String) (st : Store) (ev : Event) :
    Frame1 st (dispatch_provider env pol provider st ev).2 := by
  simp only [dispatch_provider, process_dub_webhook]
  repeat' split
  all_goals first
    | exact process_stripe_webhook_frame1 ..
    | exact process_btcpay_webhook_frame1 ..
    | exact rfl

instance {ε α : Type} [DecidableEq ε] [DecidableEq α] :
    DecidableEq (Except ε α) := fun a b =>
  match a, b with
  | .ok x, .ok y =>
    if h : x = y then .isTrue (congrArg Except.ok h)
    else .isFalse (fun hh => h (Except.ok.inj hh))
  | .error e, .error f =>
    if h : e = f then .isTrue (congrArg Except.error h)
    else .isFalse (fun hh => h (Except.error.inj hh))
  | .ok _, .error _ => .isFalse (fun hh => Except.noConfusion hh)
  | .error _, .ok _ => .isFalse (fun hh => Except.noConfusion hh)

/-- The empty store used by the concrete witnesses; the ambient clock
reads 5. -/
def st0 : Store := ⟨[], [], [], [], [], [], [], 0, 0, 0, 5, 0⟩

/-- A policy stream whose settings document is always absent (toggle off). -/
def polOff : Nat → Option Bool := fun _ => none

/-- A benign oracle environment for the concrete witnesses. -/
def envBase : Env := {
  validate := fun _ _ _ => .error (.valueError "Invalid webhook"),
  firebase_create_user := fun _ _ => .ok "uid-1",
  firebase_get_user_by_email := fun _ => .ok "uid-1",
  firebase_update_user_password := fun _ _ => .ok (),
  astron_add_user_to_club := fun _ _ => .ok (),
  astron_create_user := fun _ _ _ _ => .ok "astron-1",
  astron_magic_url := fun _ _ _ => .ok "magic-url-1",
  ac_sync := fun _ _ _ _ _ => .ok (true, some "ac-1"),
  dub_track := fun _ _ _ _ => .ok true,
  fernet_decrypt := fun _ => .ok "old-pass",
  fernet_encrypt := fun s => "enc-" ++ s,
  gen_password := "new-pass",
  uuid4 := "uuid-1" }

/-- An already-active subscription: access was granted at time 3, while the
ambient clock of `stActive` reads 5. -/
def subActive : SubscriptionRec := {
  customer_id := "cust-1", customer_email := "ana@example.com",
  customer_name := some "Ana", customer_phone := none,
  product_id := "prod-1", status := "active", amount_paid := 10000,
  currency := "BRL", payment_method := "btc",
  payment_provider := "btcpayserver", provider_subscription_id := none,
  access_granted_at := some 3, provisioning_status := some "completed",
  provisioning_error := none, affiliate_data := false,
  metadata_lead_id := none, customerId_camel := none }

def stActive : Store := { st0 with subscriptions := [("sub-1", subActive)] }

/-- C2 counterexample: calling `activate()` on the already-active
subscription `sub-1` (status "active", `access_granted_at` 3) does not
leave the document unchanged — the write goes through and
`access_granted_at` is overwritten with the current time 5, so `activate`
is not a status-checking no-op. -/
theorem activate_changes_active_subscription :
    subActive.status = "active" ∧
    Subscription.activate stActive "sub-1" ≠ .ok stActive ∧
    (Subscription.activate stActive "sub-1").map
        (fun st' => (lookupKey st'.subscriptions "sub-1").map
          (fun s => s.access_granted_at)) = .ok (some (some 5)) := by
  decide

/-- C2 (amended): `Subscription.activate` performs no status check; on a
subscription whose status is already "active" it rewrites the same
"active" status value and overwrites `access_granted_at` with the current
time, leaving every other field of the document unchanged. -/
theorem activate_unconditional_overwrite (st : Store) (id : String)
    (s : SubscriptionRec) (h : lookupKey st.subscriptions id = some s)
    (hs : s.status = "active") :
    Subscription.activate st id =
      .ok { st with subscriptions := setKey st.subscriptions id { s with access_granted_at := some st.now } } := by
  have hrec : ({ s with status := "active", access_granted_at := some st.now } : SubscriptionRec) = { s with access_granted_at := some st.now } := by
    cases s
    simp_all
  simp only [Subscription.activate, updateAt, h, hrec]

/-- Witness for the amended C2 theorem at the concrete store `stActive`. -/
theorem activate_unconditional_overwrite_witness :
    Subscription.activate stActive "sub-1" =
      .ok { stActive with subscriptions := setKey stActive.subscriptions "sub-1" { subActive with access_granted_at := some 5 } } :=
  activate_unconditional_overwrite stActive "sub-1" subActive (by decide) (by decide)

/-- C8: when the provider is recognized, the payload non-empty and the
signature header present, a `ValueError` raised by signature validation
makes `process_payment_webhook` return 401 immediately with the store
untouched — in particular no `webhook_events` ledger entry is created. -/
theorem invalid_signature_no_ledger_write
    (env : Env) (pol : Nat → Option Bool) (req : Request) (st : Store)
    (provider signature m : String)
    (hp : strTruthy req.provider = some provider)
    (hpay : req.payload ≠ "")
    (hsig : extract_signature req provider = some (some signature))
    (hval : env.validate provider req.payload signature = .error (.valueError m)) :
    process_payment_webhook env pol req st =
      ((.errMsg "Invalid signature", 401), st) := by
  simp only [process_payment_webhook, hp, hsig, hval, if_neg hpay]

/-- A BTCPay request with a present signature header. -/
def reqBtc : Request := {
  provider := some "btcpay", payload := "body",
  hStripeSignature := none, hBTCPaySig := some "sig", hBTCPaySig2 := none,
  hDubSignature := none }

/-- Witness for C8: `envBase.validate` rejects, the endpoint answers 401
and the empty store stays empty. -/
theorem invalid_signature_no_ledger_write_witness :
    process_payment_webhook envBase polOff reqBtc st0 =
      ((.errMsg "Invalid signature", 401), st0) :=
  invalid_signature_no_ledger_write envBase polOff reqBtc st0 "btcpay" "sig"
    "Invalid webhook" (by decide) (by decide) (by decide) (by decide)

/-- C1: a webhook delivery whose derived idempotency key already has a
ledger entry with `processed = true` short-circuits: the endpoint answers
`already_processed` with HTTP 200 and the store is returned untouched — no
payment record, no activation, no write of any kind. -/
theorem webhook_duplicate_short_circuits
    (env : Env) (pol : Nat → Option Bool) (req : Request) (st : Store)
    (provider signature event_id : String) (ev : Event) (r : WebhookEventRec)
    (hp : strTruthy req.provider = some provider)
    (hpay : req.payload ≠ "")
    (hsig : extract_signature req provider = some (some signature))
    (hval : env.validate provider req.payload signature = .ok ev)
    (hid : derive_event_id provider ev = .ok event_id)
    (hled : lookupKey st.webhook_events event_id = some r)
    (hproc : r.processed = true) :
    process_payment_webhook env pol req st = ((.alreadyProcessed, 200), st) := by
  simp only [process_payment_webhook, process_with_idempotency, hp, hsig,
    hval, hid, hled, hproc, if_neg hpay, if_pos]

/-- The duplicated BTCPay settlement event of the C1 witness. -/
def evDup : Event := {
  id := none, type := some "InvoiceSettled",
  invoiceId := some "inv1", metadata_subscriptionId := some "sub-1",
  orderId := none, amount_centavos := 100, currency := some "BRL",
  paymentMethod := some "BTC-CHAIN", crypto_first := none, data_object := none }

/-- A store whose ledger already holds the processed entry for `evDup`. -/
def stDup : Store := { stActive with webhook_events :=
  [("inv1_InvoiceSettled",
    ⟨"btcpay", some "InvoiceSettled", "sig", true, some 1, none⟩)] }

/-- Witness for C1 at a concrete duplicated BTCPay settlement. -/
theorem webhook_duplicate_short_circuits_witness :
    process_payment_webhook { envBase with validate := fun _ _ _ => .ok evDup }
      polOff reqBtc stDup = ((.alreadyProcessed, 200), stDup) :=
  webhook_duplicate_short_circuits _ polOff reqBtc stDup "btcpay" "sig"
    "inv1_InvoiceSettled" evDup
    ⟨"btcpay", some "InvoiceSettled", "sig", true, some 1, none⟩
    (by decide) (by decide) (by decide) (by decide) (by decide) (by decide)
    (by decide)

/-- The Stripe event of the C3 counterexample: a checkout-completed event
whose dict lacks the `data` key, so the dispatched handler raises
`KeyError('data')` after the ledger entry has been created. -/
def evC3 : Event := {
  id := some "evt-1", type := some "checkout.session.completed",
  invoiceId := none, metadata_subscriptionId := none, orderId := none,
  amount_centavos := 0, currency := none, paymentMethod := none,
  crypto_first := none, data_object := none }

/-- A Stripe request with a present signature header. -/
def reqStripe : Request := {
  provider := some "stripe", payload := "body",
  hStripeSignature := some "sig", hBTCPaySig := none, hBTCPaySig2 := none,
  hDubSignature := none }

def envC3 : Env := { envBase with validate := fun _ _ _ => .ok evC3 }

/-- C3 counterexample: for the event `evC3` the ledger entry is durably
created (and even marked processed, with the handler's error recorded),
yet the dispatched handler's exception propagates and the sender receives
HTTP 500, not 200. -/
theorem handler_exception_returns_500 :
    (process_payment_webhook envC3 polOff reqStripe st0).1 =
      (.errMsg "Internal server error", 500) ∧
    (lookupKey (process_payment_webhook envC3 polOff reqStripe st0).2.webhook_events
        "evt-1").map (fun w => w.processed) = some true := by
  decide

/-- Reduction helper: with no processed ledger entry for the key,
`process_with_idempotency` creates the entry, dispatches, and marks. -/
theorem pwi_not_processed (env : Env) (pol : Nat → Option Bool)
    (provider : String) (ev : Event) (event_id signature : String) (st : Store)
    (halready : (match lookupKey st.webhook_events event_id with
      | some r => r.processed
      | none => false) = false) :
    process_with_idempotency env pol provider ev event_id signature st =
      (match dispatch_provider env pol provider { st with webhook_events := setKey st.webhook_events event_id ⟨provider, ev.type, signature.take 50, false, none, none⟩ } ev with
        | (.ok _, st2) =>
          (match WebhookEvent.mark_processed st2 event_id none with
            | .error e2 => (.error e2, st2)
            | .ok st3 => (.ok .success, st3))
        | (.error e, st2) =>
          (match WebhookEvent.mark_processed st2 event_id (some (errStr e)) with
            | .error e2 => (.error e2, st2)
            | .ok st3 => (.error e, st3))) := by
  unfold process_with_idempotency
  dsimp only
  simp only [halready, Bool.false_eq_true, if_false]

/-- C3 (amended): once the ledger entry has been created the response
splits on the dispatched handler: a handler that returns normally makes
the endpoint answer 200 with `success`; a handler exception leaves the
entry durably marked `processed = true` with the error text recorded, but
the endpoint answers HTTP 500 — the sender does not receive 200 in that
case. -/
theorem webhook_response_after_ledger
    (env : Env) (pol : Nat → Option Bool) (req : Request) (st : Store)
    (provider signature event_id : String) (ev : Event)
    (hp : strTruthy req.provider = some provider)
    (hpay : req.payload ≠ "")
    (hsig : extract_signature req provider = some (some signature))
    (hval : env.validate provider req.payload signature = .ok ev)
    (hid : derive_event_id provider ev = .ok event_id)
    (hnew : (lookupKey st.webhook_events event_id).map (fun r => r.processed) ≠ some true) :
    (∀ u st2,
      dispatch_provider env pol provider { st with webhook_events := setKey st.webhook_events event_id ⟨provider, ev.type, signature.take 50, false, none, none⟩ } ev = (.ok u, st2) →
      (process_payment_webhook env pol req st).1 = (.success, 200)) ∧
    (∀ e st2,
      dispatch_provider env pol provider { st with webhook_events := setKey st.webhook_events event_id ⟨provider, ev.type, signature.take 50, false, none, none⟩ } ev = (.error e, st2) →
      (process_payment_webhook env pol req st).1 = (.errMsg "Internal server error", 500) ∧
      (lookupKey (process_payment_webhook env pol req st).2.webhook_events event_id).map (fun w => (w.processed, w.error)) = some (true, some (errStr e))) := by
  have halready : (match lookupKey st.webhook_events event_id with
      | some r => r.processed
      | none => false) = false := by
    cases hl : lookupKey st.webhook_events event_id with
    | none => rfl
    | some r =>
      cases hr : r.processed with
      | false => exact hr
      | true => exact absurd (by rw [hl]; simp [hr]) hnew
  have hred : process_payment_webhook env pol req st =
      (match process_with_idempotency env pol provider ev event_id signature st with
        | (.ok body, st') => ((body, 200), st')
        | (.error _, st') => ((.errMsg "Internal server error", 500), st')) := by
    simp only [process_payment_webhook, hp, hsig, hval, hid, if_neg hpay]
  constructor
  · intro u st2 hdisp
    have hl2 : lookupKey st2.webhook_events event_id =
        some ⟨provider, ev.type, signature.take 50, false, none, none⟩ := by
      have hfr := dispatch_provider_frame1 env pol provider
        { st with webhook_events := setKey st.webhook_events event_id ⟨provider, ev.type, signature.take 50, false, none, none⟩ } ev
      rw [hdisp] at hfr
      rw [hfr]
      exact lookupKey_setKey_self ..
    have hpwi : process_with_idempotency env pol provider ev event_id signature st =
        (.ok .success, { st2 with webhook_events := setKey st2.webhook_events event_id ⟨provider, ev.type, signature.take 50, true, some st2.now, none⟩ }) := by
      rw [pwi_not_processed env pol provider ev event_id signature st halready,
        hdisp]
      dsimp only
      unfold WebhookEvent.mark_processed updateAt
      rw [hl2]
    rw [hred, hpwi]
  · intro e st2 hdisp
    have hl2 : lookupKey st2.webhook_events event_id =
        some ⟨provider, ev.type, signature.take 50, false, none, none⟩ := by
      have hfr := dispatch_provider_frame1 env pol provider
        { st with webhook_events := setKey st.webhook_events event_id ⟨provider, ev.type, signature.take 50, false, none, none⟩ } ev
      rw [hdisp] at hfr
      rw [hfr]
      exact lookupKey_setKey_self ..
    have hpwi : process_with_idempotency env pol provider ev event_id signature st =
        (.error e, { st2 with webhook_events := setKey st2.webhook_events event_id ⟨provider, ev.type, signature.take 50, true, some st2.now, some (errStr e)⟩ }) := by
      rw [pwi_not_processed env pol provider ev event_id signature st halready,
        hdisp]
      dsimp only
      unfold WebhookEvent.mark_processed updateAt
      rw [hl2]
    refine ⟨by rw [hred, hpwi], ?_⟩
    rw [hred, hpwi]
    dsimp only
    rw [lookupKey_setKey_self]
    rfl

/-- A Stripe event with an unhandled type, so the dispatched handler
returns without effect. -/
def evOkType : Event := {
  id := some "evt-2", type := some "other.event",
  invoiceId := none, metadata_subscriptionId := none, orderId := none,
  amount_centavos := 0, currency := none, paymentMethod := none,
  crypto_first := none, data_object := none }

def envOkW : Env := { envBase with validate := fun _ _ _ => .ok evOkType }

/-- Witness for the amended C3 theorem: a handler that returns normally
yields HTTP 200. -/
theorem webhook_response_after_ledger_witness :
    (process_payment_webhook envOkW polOff reqStripe st0).1 = (.success, 200) :=
  (webhook_response_after_ledger envOkW polOff reqStripe st0 "stripe" "sig"
      "evt-2" evOkType (by decide) (by decide) (by decide) (by decide)
      (by decide) (by decide)).1 ()
    { st0 with webhook_events := setKey st0.webhook_events "evt-2" ⟨"stripe", some "other.event", "sig", false, none, none⟩ }
    (by decide)

/-- C7: the three reuse behaviours of the provisioning saga.  (i) A
customer holding a (truthy) encrypted password gets it decrypted and
returned, with the store unchanged — no regeneration.  (ii) When identity
creation reports the email already exists, the existing account's uid is
fetched and returned — success, not failure.  (iii) A customer with an
existing (truthy) astron member id whose re-attach call succeeds gets that
existing id back with the store unchanged — no account re-creation. -/
theorem saga_reuse_idempotence (env : Env) (st : Store) (cid : String)
    (c : CustomerRec) (enc pw email pw2 uid aid club : String) :
    (lookupKey st.customers cid = some c →
      strTruthy c.generated_password = some enc →
      env.fernet_decrypt enc = .ok pw →
      get_or_generate_password env st cid = (.ok pw, st)) ∧
    (env.firebase_create_user email pw2 = .error .emailExists →
      env.firebase_get_user_by_email email = .ok uid →
      create_or_get_firebase_user env email pw2 = .ok uid) ∧
    (lookupKey st.customers cid = some c →
      strTruthy c.astron_member_id = some aid →
      strTruthy (some club) = some club →
      env.astron_add_user_to_club aid club = .ok () →
      create_or_update_astron_account env st cid pw2 (some club) = (.ok aid, st)) := by
  refine ⟨?_, ?_, ?_⟩
  · intro h1 h2 h3
    simp only [get_or_generate_password, h1, h2, h3]
  · intro h1 h2
    simp only [create_or_get_firebase_user, h1, h2]
  · intro h1 h2 h3 h4
    simp only [create_or_update_astron_account, h3, h1, h2, h4]

/-- The fully-provisioned customer of the reuse witness. -/
def custReuse : CustomerRec := {
  email := "ana@example.com", name := "Ana", firebase_uid := some "uid-1",
  generated_password := some "enc-old", astron_member_id := some "astron-1",
  magic_login_url := some "magic-url-1", activecampaign_contact_id := none,
  converted_lead_ids := [] }

def stReuse : Store := { st0 with customers := [("cust-1", custReuse)] }

def envReuse : Env :=
  { envBase with firebase_create_user := fun _ _ => .error .emailExists }

/-- Witness for C7 at a fully-provisioned customer. -/
theorem saga_reuse_idempotence_witness :
    get_or_generate_password envReuse stReuse "cust-1" = (.ok "old-pass", stReuse) ∧
    create_or_get_firebase_user envReuse "ana@example.com" "pw" = .ok "uid-1" ∧
    create_or_update_astron_account envReuse stReuse "cust-1" "pw" (some "club-1") = (.ok "astron-1", stReuse) := by
  refine ⟨?_, ?_, ?_⟩
  · exact (saga_reuse_idempotence envReuse stReuse "cust-1" custReuse "enc-old"
      "old-pass" "x" "pw" "uid-1" "astron-1" "club-1").1
      (by decide) (by decide) (by decide)
  · exact (saga_reuse_idempotence envReuse stReuse "cust-1" custReuse "enc-old"
      "old-pass" "ana@example.com" "pw" "uid-1" "astron-1" "club-1").2.1
      (by decide) (by decide)
  · exact (saga_reuse_idempotence envReuse stReuse "cust-1" custReuse "enc-old"
      "old-pass" "x" "pw" "uid-1" "astron-1" "club-1").2.2
      (by decide) (by decide) (by decide) (by decide)

/-- Subscriptions-collection preservation by the customer-side saga
helpers. -/
def FrameC (st st' : Store) : Prop := st'.subscriptions = st.subscriptions

theorem get_or_create_customer_frameC (st : Store) (a b c : String) :
    FrameC st (get_or_create_customer st a b c).2 := by
  simp only [get_or_create_customer]
  repeat' split
  all_goals rfl

theorem genNewPassword_frameC (env : Env) (st : Store) (cid : String) :
    FrameC st (genNewPassword env st cid).2 := by
  simp only [genNewPassword, updateAt]
  repeat' split
  all_goals rfl

theorem get_or_generate_password_frameC (env : Env) (st : Store) (cid : String) :
    FrameC st (get_or_generate_password env st cid).2 := by
  simp only [get_or_generate_password]
  repeat' split
  all_goals first
    | exact genNewPassword_frameC ..
    | rfl

theorem create_or_update_astron_account_frameC (env : Env) (st : Store)
    (cid password : String) (club_id : Option String) :
    FrameC st (create_or_update_astron_account env st cid password club_id).2 := by
  simp only [create_or_update_astron_account, updateAt]
  repeat' split
  all_goals rfl

theorem sync_activecampaign_frameC (env : Env) (st : Store)
    (cid a b c d e : String) :
    FrameC st (sync_activecampaign env st cid a b c d e) := by
  simp only [sync_activecampaign, updateAt]
  repeat' split
  all_goals rfl

/-- Every error exit of the saga's try block leaves the subscriptions
collection exactly as it was: only step 8, which cannot fail before its
write, touches it. -/
theorem provisionSteps_error_subs (env : Env) (st : Store) (sid : String)
    (sub : SubscriptionRec) (product : ProductRec) (e : Err) (st1 : Store)
    (h : provisionSteps env st sid sub product = (.error e, st1)) :
    st1.subscriptions = st.subscriptions := by
  simp only [provisionSteps] at h
  rcases hA : get_or_create_customer st sub.customer_id sub.customer_email
      (sub.customer_name.getD "Customer") with ⟨cid, stA⟩
  rw [hA] at h
  have fA : FrameC st stA := by
    have := get_or_create_customer_frameC st sub.customer_id sub.customer_email
      (sub.customer_name.getD "Customer")
    rwa [hA] at this
  dsimp only at h
  rcases hB : get_or_generate_password env stA cid with ⟨r2, stB⟩
  rw [hB] at h
  have fB : FrameC st stB := by
    have := get_or_generate_password_frameC env stA cid
    rw [hB] at this
    exact this.trans fA
  rcases r2 with e2 | password
  · cases h
    exact fB
  · dsimp only at h
    rcases hC : lookupKey stB.customers cid with _ | c
    · rw [hC] at h
      cases h
      exact fB
    · rw [hC] at h
      dsimp only at h
      rcases hD : create_or_get_firebase_user env c.email password with e3 | firebase_uid
      · rw [hD] at h
        cases h
        exact fB
      · rw [hD] at h
        dsimp only at h
        rcases hE : (if (strTruthy c.firebase_uid).isNone then
            match updateAt stB.customers cid
                (fun c0 => { c0 with firebase_uid := some firebase_uid })
                "customer" with
            | .error e => .error e
            | .ok cs => .ok { stB with customers := cs }
          else .ok stB : Except Err Store) with e4 | stD
        · rw [hE] at h
          cases h
          exact fB
        · rw [hE] at h
          dsimp only at h
          have fD : FrameC st stD := by
            split at hE
            · revert hE
              unfold updateAt
              repeat' split
              all_goals intro hE
              all_goals first
                | exact Except.noConfusion hE
                | (cases hE; exact fB)
            · cases hE; exact fB
          rcases hF : create_or_update_astron_account env stD cid password
              product.astron_club_id with ⟨r4, stF⟩
          rw [hF] at h
          have fF : FrameC st stF := by
            have := create_or_update_astron_account_frameC env stD cid password
              product.astron_club_id
            rw [hF] at this
            exact this.trans fD
          rcases r4 with e5 | astron_member_id
          · cases h
            exact fF
          · dsimp only at h
            rcases hG : generate_magic_login_url env astron_member_id c.email with e6 | magic_url
            · rw [hG] at h
              cases h
              exact fF
            · rw [hG] at h
              dsimp only at h
              rcases hH : updateAt stF.customers cid
                  (fun c0 => { c0 with magic_login_url := some magic_url })
                  "customer" with e7 | cs
              · rw [hH] at h
                cases h
                exact fF
              · rw [hH] at h
                dsimp only at h
                have fH : FrameC st ({ stF with customers := cs } : Store) := fF
                have fI : FrameC st (sync_activecampaign env
                    { stF with customers := cs } cid c.email c.name
                    product.name password magic_url) :=
                  (sync_activecampaign_frameC ..).trans fH
                rcases hJ : updateAt (sync_activecampaign env
                    { stF with customers := cs } cid c.email c.name
                    product.name password magic_url).subscriptions sid
                    (fun s => { s with
                      access_granted_at := some (sync_activecampaign env
                        { stF with customers := cs } cid c.email c.name
                        product.name password magic_url).now,
                      provisioning_status := some "completed" })
                    "subscription" with e8 | subs
                · rw [hJ] at h
                  cases h
                  exact fI
                · rw [hJ] at h
                  cases h

/-- C4: if the saga's try block raises, `provision_customer` records
`provisioning_status = 'failed'` with the captured error text on the
subscription and re-raises the same exception. -/
theorem provision_failure_marks_failed (env : Env) (st : Store) (sid : String)
    (sub : SubscriptionRec) (product : ProductRec) (e : Err) (st1 : Store)
    (hsub : lookupKey st.subscriptions sid = some sub)
    (hprod : lookupKey st.products sub.product_id = some product)
    (hsteps : provisionSteps env st sid sub product = (.error e, st1)) :
    provision_customer env st sid =
      (.error e, { st1 with subscriptions := setKey st1.subscriptions sid { sub with provisioning_status := some "failed", provisioning_error := some (errStr e) } }) ∧
    (lookupKey (provision_customer env st sid).2.subscriptions sid).map
        (fun s => (s.provisioning_status, s.provisioning_error)) =
      some (some "failed", some (errStr e)) := by
  have hsubs1 : st1.subscriptions = st.subscriptions :=
    provisionSteps_error_subs env st sid sub product e st1 hsteps
  have hl1 : lookupKey st1.subscriptions sid = some sub := by
    rw [hsubs1]
    exact hsub
  have h1 : provision_customer env st sid =
      (.error e, { st1 with subscriptions := setKey st1.subscriptions sid { sub with provisioning_status := some "failed", provisioning_error := some (errStr e) } }) := by
    simp only [provision_customer, hsub, hprod, hsteps, updateAt, hl1]
  refine ⟨h1, ?_⟩
  rw [h1]
  dsimp only
  rw [lookupKey_setKey_self]
  rfl

/-- The payment-pending subscription, product and customer of the C4
witness; the identity-creation oracle of `envFail` raises. -/
def subPending : SubscriptionRec := {
  customer_id := "cust-1", customer_email := "ana@example.com",
  customer_name := some "Ana", customer_phone := none,
  product_id := "prod-1", status := "payment_pending", amount_paid := 10000,
  currency := "BRL", payment_method := "btc",
  payment_provider := "btcpayserver", provider_subscription_id := none,
  access_granted_at := none, provisioning_status := none,
  provisioning_error := none, affiliate_data := false,
  metadata_lead_id := none, customerId_camel := none }

def prodW : ProductRec := { name := "Curso", astron_club_id := some "club-1" }

def stProv : Store := { st0 with
  subscriptions := [("sub-1", subPending)],
  products := [("prod-1", prodW)],
  customers := [("cust-1", custReuse)] }

def envFail : Env :=
  { envBase with firebase_create_user := fun _ _ => .error (.external "boom") }

/-- Witness for C4: the identity-creation failure aborts the saga, the
subscription is flagged failed with the error text, and the exception is
re-raised. -/
theorem provision_failure_marks_failed_witness :
    provision_customer envFail stProv "sub-1" =
      (.error (.external "boom"), { stProv with subscriptions := setKey stProv.subscriptions "sub-1" { subPending with provisioning_status := some "failed", provisioning_error := some (errStr (.external "boom")) } }) ∧
    (lookupKey (provision_customer envFail stProv "sub-1").2.subscriptions "sub-1").map
        (fun s => (s.provisioning_status, s.provisioning_error)) =
      some (some "failed", some (errStr (.external "boom"))) :=
  provision_failure_marks_failed envFail stProv "sub-1" subPending prodW
    (.external "boom") stProv (by decide) (by decide) (by decide)

/-- C10: a successful approval of a pending verification always creates a
brand-new subscription — at a fresh auto id not present in the collection,
with product `onboarding-special`, amount 10000 centavos, status
`payment_pending`, and the fresh uuid4 as customer id — runs the
orchestrator on that new subscription (never on the one already referenced
by `subscription_created`, whose id differs from the fresh one), and
overwrites the verification's `subscription_created` with the new id. -/
theorem approve_creates_fresh_subscription (env : Env) (st : Store)
    (vid notes user oldSid : String) (v : VerificationRec)
    (pr : ProvisionResult) (st2 : Store)
    (hvid : strTruthy (some vid) = some vid)
    (hv : lookupKey st.manual_verifications vid = some v)
    (hpending : v.status = "pending")
    (_hold : v.subscription_created = some oldSid)
    (holdEx : (lookupKey st.subscriptions oldSid).isSome = true)
    (hfresh : lookupKey st.subscriptions (freshDocId st) = none)
    (hprov : provision_customer env (approveMidStore env st vid v notes user) (freshDocId st) = (.ok pr, st2)) :
    (approve_manual_verification env st (some vid) notes user).1 =
        .ok ⟨freshDocId st, pr.customer_id, pr.firebase_uid⟩ ∧
    lookupKey (approveMidStore env st vid v notes user).subscriptions (freshDocId st) = some (approveSubData env v) ∧
    (approveSubData env v).product_id = "onboarding-special" ∧
    (approveSubData env v).amount_paid = 10000 ∧
    (approveSubData env v).status = "payment_pending" ∧
    (approveSubData env v).customer_id = env.uuid4 ∧
    freshDocId st ≠ oldSid ∧
    (lookupKey (approve_manual_verification env st (some vid) notes user).2.manual_verifications vid).map (fun w => w.subscription_created) = some (some (freshDocId st)) := by
  have hne : freshDocId st ≠ oldSid := by
    intro hEq
    rw [hEq] at hfresh
    rw [hfresh] at holdEx
    simp at holdEx
  have hfr := provision_customer_frame3 env
    (approveMidStore env st vid v notes user) (freshDocId st)
  rw [hprov] at hfr
  have hl2 : lookupKey st2.manual_verifications vid =
      some { v with status := "approved", reviewed_by := some user, reviewed_at := some st.now, notes := notes } := by
    rw [hfr.2.1]
    simp only [approveMidStore]
    exact lookupKey_setKey_self ..
  have hmain : approve_manual_verification env st (some vid) notes user =
      (.ok ⟨freshDocId st, pr.customer_id, pr.firebase_uid⟩,
       { st2 with manual_verifications := setKey st2.manual_verifications vid { v with status := "approved", reviewed_by := some user, reviewed_at := some st.now, notes := notes, subscription_created := some (freshDocId st) }, admin_actions := st2.admin_actions + 1 }) := by
    simp only [approve_manual_verification, hvid, hv]
    rw [if_neg (by simp [hpending])]
    rw [hprov]
    dsimp only
    unfold updateAt
    rw [hl2]
  refine ⟨by rw [hmain], ?_, rfl, rfl, rfl, rfl, hne, ?_⟩
  · simp only [approveMidStore]
    exact lookupKey_setKey_self ..
  · rw [hmain]
    dsimp only
    rw [lookupKey_setKey_self]
    rfl

/-- The pending auto-generated verification of the C10 witness, already
referencing the existing subscription `sub-old`. -/
def mvPend : VerificationRec := {
  email := "ana@example.com", name := none, upload_url := "",
  status := "pending", auto_generated := true, customer_name := "Ana",
  customer_phone := "", submitted_at := 1, reviewed_by := none,
  reviewed_at := none, notes := "", subscription_created := some "sub-old",
  provisioning_error := none, provisioning_failed_at := none }

/-- Store for the C10 witness: the old subscription, the onboarding
product, the existing customer, and the pending verification. -/
def stApprove : Store := { st0 with
  subscriptions := [("sub-old", subActive)],
  products := [("onboarding-special", prodW)],
  customers := [("cust-1", custReuse)],
  manual_verifications := [("ver-1", mvPend)] }

def envAp : Env :=
  { envBase with ac_sync := fun _ _ _ _ _ => .ok (false, none) }

/-- Witness for C10 at a concrete pending verification. -/
theorem approve_creates_fresh_subscription_witness :
    (approve_manual_verification envAp stApprove (some "ver-1") "ok" "admin").1 =
      .ok ⟨freshDocId stApprove, "cust-1", "uid-1"⟩ ∧
    freshDocId stApprove ≠ "sub-old" ∧
    (lookupKey (approve_manual_verification envAp stApprove (some "ver-1") "ok" "admin").2.manual_verifications "ver-1").map (fun w => w.subscription_created) = some (some (freshDocId stApprove)) := by
  have h := approve_creates_fresh_subscription envAp stApprove "ver-1" "ok"
    "admin" "sub-old" mvPend ⟨"cust-1", "uid-1", "astron-1", "magic-url-1"⟩
    { approveMidStore envAp stApprove "ver-1" mvPend "ok" "admin" with subscriptions := setKey (approveMidStore envAp stApprove "ver-1" mvPend "ok" "admin").subscriptions (freshDocId stApprove) { approveSubData envAp mvPend with access_granted_at := some 5, provisioning_status := some "completed" } }
    (by decide) (by decide) (by decide) (by decide) (by decide) (by decide)
    (by decide)
  exact ⟨h.1, h.2.2.2.2.2.2.1, h.2.2.2.2.2.2.2⟩

theorem settled_toggle_branch_preads (env : Env) (st : Store) (sid : String)
    (a b : Bool) :
    (settled_toggle_branch env st sid a b).policyReads = st.policyReads := by
  simp only [settled_toggle_branch]
  split
  · split
    · rfl
    · rfl
  · split
    · rcases hP : provision_customer env st sid with ⟨r, st'⟩
      have fP := provision_customer_frame3 env st sid
      rw [hP] at fP
      rcases r with e | r
      · dsimp only
        exact ((mark_lead_provisioning_failed_frame3 st' sid (errStr e)).2.2).trans fP.2.2
      · dsimp only
        exact ((mark_lead_provisioning_complete_frame3 st' sid).2.2).trans fP.2.2
    · rfl

/-- C5: the two settled-payment handlers read the provisioning-policy
toggle exactly once, into a local snapshot.  Parts one and two: two runs
whose policy streams agree at the single consumed index (the store's read
counter) produce identical results — flipping the policy after that read
cannot change the branch taken or any other outcome.  Parts three and
four: every completed run on a settlement carrying a subscription id
consumes exactly one policy read. -/
theorem toggle_snapshot_isolation (env : Env) (st : Store) (ev : Event)
    (pol1 pol2 pol : Nat → Option Bool) (session : StripeSession)
    (s0 : Option String) (sid : String) :
    (pol1 st.policyReads = pol2 st.policyReads →
      process_invoice_settled env pol1 st ev = process_invoice_settled env pol2 st ev) ∧
    (pol1 st.policyReads = pol2 st.policyReads →
      process_checkout_completed env pol1 st ev = process_checkout_completed env pol2 st ev) ∧
    (pyOr ev.metadata_subscriptionId ev.orderId = some sid →
      (process_invoice_settled env pol st ev).1 = .ok () →
      (process_invoice_settled env pol st ev).2.policyReads = st.policyReads + 1) ∧
    (ev.data_object = some session →
      session.metadata_subscription_id = some s0 →
      strTruthy s0 = some sid →
      session.payment_status = some "paid" →
      (process_checkout_completed env pol st ev).1 = .ok () →
      (process_checkout_completed env pol st ev).2.policyReads = st.policyReads + 1) := by
  refine ⟨?_, ?_, ?_, ?_⟩
  · intro hpol
    simp only [process_invoice_settled]
    rcases pyOr ev.metadata_subscriptionId ev.orderId with _ | sid2
    · rfl
    · dsimp only
      rcases hA : settled_pre_toggle st ev sid2 with ⟨r, st1⟩
      have hpr : st1.policyReads = st.policyReads := by
        have := settled_pre_toggle_frame3 st ev sid2
        rw [hA] at this
        exact this.2.2
      rcases r with e | sp
      · rfl
      · dsimp only
        rw [hpr, hpol]
  · intro hpol
    simp only [process_checkout_completed]
    rcases ev.data_object with _ | session2
    · rfl
    · dsimp only
      rcases session2.metadata_subscription_id with _ | t0
      · rfl
      · dsimp only
        rcases strTruthy t0 with _ | sid2
        · rfl
        · dsimp only
          rcases updateAt st.subscriptions sid2
              (fun s => { s with provider_subscription_id := some session2.id })
              "subscription" with e | subs
          · rfl
          · dsimp only
            split
            · rcases hA : checkout_paid_pre_toggle
                  { st with subscriptions := subs } session2 sid2 with ⟨r, st1⟩
              have hpr : st1.policyReads = st.policyReads := by
                have := checkout_paid_pre_toggle_frame3
                    ({ st with subscriptions := subs }) session2 sid2
                rw [hA] at this
                exact this.2.2
              rcases r with e | sp
              · rfl
              · dsimp only
                rw [hpr, hpol]
            · rfl
  · intro hsid hok
    simp only [process_invoice_settled] at hok ⊢
    rw [hsid] at hok ⊢
    dsimp only at hok ⊢
    rcases hA : settled_pre_toggle st ev sid with ⟨r, st1⟩
    rw [hA] at hok
    have hpr : st1.policyReads = st.policyReads := by
      have := settled_pre_toggle_frame3 st ev sid
      rw [hA] at this
      exact this.2.2
    rcases r with e | sp
    · exact Except.noConfusion hok
    · dsimp only
      rw [settled_toggle_branch_preads]
      dsimp only
      rw [hpr]
  · intro hdo hmeta hsid hpaid hok
    simp only [process_checkout_completed, hdo, hmeta, hsid, hpaid,
      beq_self_eq_true, if_true] at hok ⊢
    rcases hU : updateAt st.subscriptions sid
        (fun s => { s with provider_subscription_id := some session.id })
        "subscription" with e | subs
    · rw [hU] at hok
      exact Except.noConfusion hok
    · rw [hU] at hok
      dsimp only at hok ⊢
      rcases hA : checkout_paid_pre_toggle
          { st with subscriptions := subs } session sid with ⟨r, st1⟩
      rw [hA] at hok
      have hpr : st1.policyReads = st.policyReads := by
        have := checkout_paid_pre_toggle_frame3
            ({ st with subscriptions := subs }) session sid
        rw [hA] at this
        exact this.2.2
      rcases r with e | sp
      · exact Except.noConfusion hok
      · dsimp only
        rw [settled_toggle_branch_preads]
        dsimp only
        rw [hpr]

/-- The settled BTCPay event and the paid Stripe session of the C5
witness. -/
def sessionPaid : StripeSession := {
  id := "cs-1", metadata_subscription_id := some (some "sub-1"),
  payment_status := some "paid", amount_total := some 10000,
  currency := some "brl", payment_intent := some "pi-1",
  customer_details_email := some "ana@example.com" }

def evPaid : Event := {
  id := some "evt-3", type := some "checkout.session.completed",
  invoiceId := none, metadata_subscriptionId := none, orderId := none,
  amount_centavos := 0, currency := none, paymentMethod := none,
  crypto_first := none, data_object := some sessionPaid }

/-- A policy stream that is on at the first read and flips off afterwards
(the mid-processing flip of the claim). -/
def polFlip : Nat → Option Bool := fun i => if i = 0 then some true else some false

/-- A policy stream that stays on. -/
def polOn : Nat → Option Bool := fun _ => some true

/-- Witness for C5: at the store `stProv` the BTCPay settlement run under
the flipped stream equals the run under the constant stream (they agree at
the single read), and both handler runs consume exactly one read. -/
theorem toggle_snapshot_isolation_witness :
    process_invoice_settled envBase polFlip stProv evDup =
      process_invoice_settled envBase polOn stProv evDup ∧
    (process_invoice_settled envBase polFlip stProv evDup).2.policyReads =
      stProv.policyReads + 1 ∧
    (process_checkout_completed envBase polFlip stProv evPaid).2.policyReads =
      stProv.policyReads + 1 := by
  refine ⟨?_, ?_, ?_⟩
  · exact (toggle_snapshot_isolation envBase stProv evDup polFlip polOn polOff
      sessionPaid (some "sub-1") "sub-1").1 (by decide)
  · exact (toggle_snapshot_isolation envBase stProv evDup polOff polOn polFlip
      sessionPaid (some "sub-1") "sub-1").2.2.1 (by decide) (by decide)
  · exact (toggle_snapshot_isolation envBase stProv evPaid polOff polOn polFlip
      sessionPaid (some "sub-1") "sub-1").2.2.2 (by decide) (by decide)
      (by decide) (by decide) (by decide)

/-- Number of manual-verification documents whose `subscription_created`
equals `s` — the pre-check query of btcpay_processor.py lines 107-109 and
stripe_processor.py lines 99-101, which does not filter on
`auto_generated`. -/
def mvCountFor (st : Store) (s : String) : Nat :=
  (st.manual_verifications.filter
    (fun p => p.2.subscription_created == some s)).length

/-- Number of auto-generated manual-verification documents for `s` — the
quantity the uniqueness invariant bounds. -/
def autoMvCountFor (st : Store) (s : String) : Nat :=
  (st.manual_verifications.filter
    (fun p => p.2.subscription_created == some s && p.2.auto_generated)).length

theorem filter_and_length_le {α : Type} (l : List α) (p q : α → Bool) :
    (l.filter (fun a => p a && q a)).length ≤ (l.filter p).length := by
  induction l with
  | nil => simp
  | cons a rest ih =>
    by_cases hp : p a
    · by_cases hq : q a
      · simp only [List.filter_cons, hp, hq, Bool.and_self, if_pos,
          List.length_cons]
        exact Nat.succ_le_succ ih
      · simp only [List.filter_cons, hp, hq, Bool.and_false, if_pos]
        simp only [Bool.false_eq_true, if_false, List.length_cons]
        exact Nat.le_succ_of_le ih
    · simp only [List.filter_cons, hp, Bool.false_and, Bool.false_eq_true,
        if_false]
      exact ih

theorem filter_setKey_length_le {α : Type} (l : List (String × α)) (k : String)
    (v : α) (p : String × α → Bool) :
    ((setKey l k v).filter p).length ≤
      (l.filter p).length + (if p (k, v) then 1 else 0) := by
  induction l with
  | nil =>
    by_cases hp : p (k, v) <;> simp [setKey, List.filter, hp]
  | cons a rest ih =>
    rcases a with ⟨k0, v0⟩
    by_cases hk : k0 = k
    · subst hk
      have hred : setKey ((k0, v0) :: rest) k0 v = (k0, v) :: rest := by
        simp [setKey]
      rw [hred]
      by_cases hp : p (k0, v) <;> by_cases hp0 : p (k0, v0) <;>
        simp [List.filter_cons, hp, hp0]
    · have hred : setKey ((k0, v0) :: rest) k v = (k0, v0) :: setKey rest k v := by
        simp [setKey, hk]
      rw [hred]
      by_cases hp0 : p (k0, v0) <;> by_cases hp : p (k, v) <;>
        simp [List.filter_cons, hp0, hp] at ih ⊢ <;> omega

/-- The toggle branch keeps both manual-verification counts at most one:
the creation path is guarded by the pre-check and the provisioning path
never writes the collection. -/
theorem settled_toggle_branch_mv_bound (env : Env) (st : Store) (sid : String)
    (a b : Bool) (s : String) (h : mvCountFor st s ≤ 1) :
    mvCountFor (settled_toggle_branch env st sid a b) s ≤ 1 ∧
    autoMvCountFor (settled_toggle_branch env st sid a b) s ≤ 1 := by
  have hauto : ∀ st' : Store, autoMvCountFor st' s ≤ mvCountFor st' s := by
    intro st'
    exact filter_and_length_le st'.manual_verifications _ _
  simp only [settled_toggle_branch]
  by_cases ha : a = true
  · rw [if_neg (by simp [ha])]
    by_cases hb : b = true
    · rw [if_pos hb]
      rcases hP : provision_customer env st sid with ⟨r, st'⟩
      have fP := provision_customer_frame3 env st sid
      rw [hP] at fP
      rcases r with e | r
      · dsimp only
        have h2 := (mark_lead_provisioning_failed_frame3 st' sid (errStr e)).2.1
        unfold mvCountFor autoMvCountFor
        rw [h2, fP.2.1]
        exact ⟨h, le_trans (filter_and_length_le _ _ _) h⟩
      · dsimp only
        have h2 := (mark_lead_provisioning_complete_frame3 st' sid).2.1
        unfold mvCountFor autoMvCountFor
        rw [h2, fP.2.1]
        exact ⟨h, le_trans (filter_and_length_le _ _ _) h⟩
    · rw [if_neg hb]
      exact ⟨h, (hauto st).trans h⟩
  · rw [if_pos (by simp [ha])]
    by_cases he : (st.manual_verifications.filter
        (fun p => p.2.subscription_created == some sid)).length > 0
    · rw [if_pos he]
      exact ⟨h, (hauto st).trans h⟩
    · rw [if_neg he]
      have hzero : (st.manual_verifications.filter
          (fun p => p.2.subscription_created == some sid)).length = 0 := by
        omega
      by_cases hs : s = sid
      · subst hs
        constructor
        · unfold mvCountFor
          dsimp only
          refine le_trans (filter_setKey_length_le _ _ _ _) ?_
          rw [hzero]
          split <;> omega
        · unfold autoMvCountFor
          dsimp only
          refine le_trans (filter_setKey_length_le _ _ _ _) ?_
          have h3 : (st.manual_verifications.filter
              (fun q => q.2.subscription_created == some s
                && q.2.auto_generated)).length ≤
              (st.manual_verifications.filter
                (fun q => q.2.subscription_created == some s)).length :=
            filter_and_length_le _ _ _
          split <;> omega
      · constructor
        · unfold mvCountFor at h ⊢
          dsimp only
          refine le_trans (filter_setKey_length_le _ _ _ _) ?_
          rw [if_neg (by simp [Ne.symm hs])]
          omega
        · unfold mvCountFor at h
          unfold autoMvCountFor
          dsimp only
          refine le_trans (filter_setKey_length_le _ _ _ _) ?_
          rw [if_neg (by simp [Ne.symm hs])]
          have h3 : (st.manual_verifications.filter
              (fun q => q.2.subscription_created == some s
                && q.2.auto_generated)).length ≤
              (st.manual_verifications.filter
                (fun q => q.2.subscription_created == some s)).length :=
            filter_and_length_le _ _ _
          omega

/-- C6: for both settlement handlers, if at most one manual verification
references a subscription value before the run, then after the run at most
one does, and in particular at most one auto-generated one — the pre-check
of the creation path skips creation whenever any record with the same
`subscription_created` exists, so repeated delivery never accumulates
records. -/
theorem manual_verification_uniqueness (env : Env) (pol : Nat → Option Bool)
    (st : Store) (ev : Event) (s : String) :
    (mvCountFor st s ≤ 1 →
      mvCountFor (process_invoice_settled env pol st ev).2 s ≤ 1 ∧
      autoMvCountFor (process_invoice_settled env pol st ev).2 s ≤ 1) ∧
    (mvCountFor st s ≤ 1 →
      mvCountFor (process_checkout_completed env pol st ev).2 s ≤ 1 ∧
      autoMvCountFor (process_checkout_completed env pol st ev).2 s ≤ 1) := by
  have hauto : ∀ st' : Store, autoMvCountFor st' s ≤ mvCountFor st' s := by
    intro st'
    exact filter_and_length_le st'.manual_verifications _ _
  have hcongr : ∀ st1 st2 : Store,
      st1.manual_verifications = st2.manual_verifications →
      mvCountFor st1 s = mvCountFor st2 s ∧
      autoMvCountFor st1 s = autoMvCountFor st2 s := by
    intro st1 st2 hmv
    unfold mvCountFor autoMvCountFor
    rw [hmv]
    exact ⟨rfl, rfl⟩
  constructor
  · intro h
    simp only [process_invoice_settled]
    rcases pyOr ev.metadata_subscriptionId ev.orderId with _ | sid
    · exact ⟨h, (hauto st).trans h⟩
    · dsimp only
      rcases hA : settled_pre_toggle st ev sid with ⟨r, st1⟩
      have f1 := settled_pre_toggle_frame3 st ev sid
      rw [hA] at f1
      rcases r with e | sp
      · dsimp only
        rcases hcongr st1 st f1.2.1 with ⟨e1, e2⟩
        exact ⟨e1 ▸ h, e2 ▸ ((hauto st).trans h)⟩
      · dsimp only
        have h1 : mvCountFor ({ st1 with policyReads := st1.policyReads + 1 } : Store) s ≤ 1 := by
          rcases hcongr st1 st f1.2.1 with ⟨e1, _⟩
          have : mvCountFor ({ st1 with policyReads := st1.policyReads + 1 } : Store) s = mvCountFor st1 s := rfl
          omega
        exact settled_toggle_branch_mv_bound env _ sid _ sp s h1
  · intro h
    simp only [process_checkout_completed]
    rcases ev.data_object with _ | session
    · exact ⟨h, (hauto st).trans h⟩
    · dsimp only
      rcases session.metadata_subscription_id with _ | s0
      · exact ⟨h, (hauto st).trans h⟩
      · dsimp only
        rcases strTruthy s0 with _ | sid
        · exact ⟨h, (hauto st).trans h⟩
        · dsimp only
          rcases updateAt st.subscriptions sid
              (fun x => { x with provider_subscription_id := some session.id })
              "subscription" with e | subs
          · exact ⟨h, (hauto st).trans h⟩
          · dsimp only
            split
            · rcases hA : checkout_paid_pre_toggle
                  { st with subscriptions := subs } session sid with ⟨r, st1⟩
              have f1 := checkout_paid_pre_toggle_frame3
                  ({ st with subscriptions := subs }) session sid
              rw [hA] at f1
              have hmid : mvCountFor ({ st with subscriptions := subs } : Store) s = mvCountFor st s := rfl
              rcases r with e | sp
              · dsimp only
                rcases hcongr st1 ({ st with subscriptions := subs }) f1.2.1 with ⟨e1, _⟩
                have e2 : autoMvCountFor st1 s ≤ mvCountFor st1 s := hauto st1
                constructor
                · omega
                · omega
              · dsimp only
                have h1 : mvCountFor ({ st1 with policyReads := st1.policyReads + 1 } : Store) s ≤ 1 := by
                  rcases hcongr st1 ({ st with subscriptions := subs }) f1.2.1 with ⟨e1, _⟩
                  have : mvCountFor ({ st1 with policyReads := st1.policyReads + 1 } : Store) s = mvCountFor st1 s := rfl
                  omega
                exact settled_toggle_branch_mv_bound env _ sid _ sp s h1
            · exact ⟨h, (hauto st).trans h⟩

/-- Witness for C6: the empty-queue store satisfies the bound, and running
the BTCPay settlement with the toggle off (which creates the single
auto-generated verification) keeps both counts at one. -/
theorem manual_verification_uniqueness_witness :
    mvCountFor (process_invoice_settled envBase polOff stProv evDup).2 "sub-1" ≤ 1 ∧
    autoMvCountFor (process_invoice_settled envBase polOff stProv evDup).2 "sub-1" ≤ 1 :=
  (manual_verification_uniqueness envBase polOff stProv evDup "sub-1").1
    (by decide)

theorem lookupKey_of_mem {α : Type} (l : List (String × α)) (k : String) (v : α)
    (hnd : (l.map Prod.fst).Nodup) (hmem : (k, v) ∈ l) :
    lookupKey l k = some v := by
  induction l with
  | nil => cases hmem
  | cons a rest ih =>
    rcases a with ⟨k0, v0⟩
    rcases List.mem_cons.mp hmem with h | h
    · cases h
      simp [lookupKey]
    · have hnd1 : (((k0, v0) :: rest).map Prod.fst) = k0 :: rest.map Prod.fst := rfl
      rw [hnd1] at hnd
      obtain ⟨h1, h2⟩ := List.nodup_cons.mp hnd
      have hk : k0 ≠ k := by
        intro hEq
        subst hEq
        exact h1 (List.mem_map_of_mem Prod.fst h)
      simp only [lookupKey, if_neg hk]
      exact ih h2 h

/-- The bulk loop's accumulator invariant: every processed item bumps
exactly one of the two counters, each failure appends exactly one error
entry, and every error-listed verification still has status "pending" in
the evolving store. -/
theorem bulk_fold_invariant (env : Env) (user : String) :
    ∀ (items : List (String × VerificationRec)) (succ fail : Nat)
      (errs : List BulkItemErr) (stc : Store),
      (items.map Prod.fst).Nodup →
      (∀ k, k ∈ items.map Prod.fst →
        (lookupKey stc.manual_verifications k).map (fun w => w.status) = some "pending") →
      (∀ er ∈ errs,
        (lookupKey stc.manual_verifications er.verification_id).map (fun w => w.status) = some "pending" ∧
        er.verification_id ∉ items.map Prod.fst) →
      ((items.foldl (bulk_item_step env user) (succ, fail, errs, stc)).1 +
        (items.foldl (bulk_item_step env user) (succ, fail, errs, stc)).2.1 =
        succ + fail + items.length) ∧
      ((items.foldl (bulk_item_step env user) (succ, fail, errs, stc)).2.2.1.length + fail =
        errs.length + (items.foldl (bulk_item_step env user) (succ, fail, errs, stc)).2.1) ∧
      (∀ er ∈ (items.foldl (bulk_item_step env user) (succ, fail, errs, stc)).2.2.1,
        (lookupKey (items.foldl (bulk_item_step env user) (succ, fail, errs, stc)).2.2.2.manual_verifications
          er.verification_id).map (fun w => w.status) = some "pending") := by
  intro items
  induction items with
  | nil =>
    intro succ fail errs stc hnd hpend herrs
    simp only [List.foldl_nil, List.length_nil]
    refine ⟨by omega, ?_, fun er hm => (herrs er hm).1⟩
    exact trivial
  | cons item rest ih =>
    intro succ fail errs stc hnd hpend herrs
    rcases item with ⟨vid, vdata⟩
    have hnd1 : (((vid, vdata) :: rest).map Prod.fst) = vid :: rest.map Prod.fst := rfl
    rw [hnd1] at hnd
    have hndr : (rest.map Prod.fst).Nodup := (List.nodup_cons.mp hnd).2
    have hvidnr : vid ∉ rest.map Prod.fst := (List.nodup_cons.mp hnd).1
    simp only [List.foldl_cons, List.length_cons]
    rcases hsc : strTruthy vdata.subscription_created with _ | sid
    · have hstep : bulk_item_step env user (succ, fail, errs, stc) (vid, vdata) =
          (succ, fail + 1,
           errs ++ [⟨vid, vdata.email, "No subscription_id found for verification " ++ vid⟩],
           stc) := by
        simp only [bulk_item_step]
        rw [hsc]
      rw [hstep]
      have hpend' : ∀ k, k ∈ rest.map Prod.fst →
          (lookupKey stc.manual_verifications k).map (fun w => w.status) = some "pending" := by
        intro k hk
        exact hpend k (by simpa using Or.inr hk)
      have herrs' : ∀ er ∈ errs ++ [(⟨vid, vdata.email, "No subscription_id found for verification " ++ vid⟩ : BulkItemErr)],
          (lookupKey stc.manual_verifications er.verification_id).map (fun w => w.status) = some "pending" ∧
          er.verification_id ∉ rest.map Prod.fst := by
        intro er hm
        rcases List.mem_append.mp hm with hm | hm
        · refine ⟨(herrs er hm).1, fun hin => (herrs er hm).2 ?_⟩
          simpa using Or.inr hin
        · rcases List.mem_singleton.mp hm with rfl
          exact ⟨hpend vid (by simp), hvidnr⟩
      obtain ⟨g1, g2, g3⟩ := ih succ (fail + 1)
        (errs ++ [⟨vid, vdata.email, "No subscription_id found for verification " ++ vid⟩])
        stc hndr hpend' herrs'
      refine ⟨by omega, ?_, g3⟩
      simp only [List.length_append, List.length_singleton] at g2
      omega
    · rcases hP : provision_customer env stc sid with ⟨r, st1⟩
      have hmv1 : st1.manual_verifications = stc.manual_verifications := by
        have := provision_customer_frame3 env stc sid
        rw [hP] at this
        exact this.2.1
      have hvd := hpend vid (by simp)
      rcases hw : lookupKey stc.manual_verifications vid with _ | w
      · rw [hw] at hvd
        exact absurd hvd (by simp)
      · have hwst : w.status = "pending" := by
          rw [hw] at hvd
          simpa using hvd
        have hl : lookupKey st1.manual_verifications vid = some w := by
          rw [hmv1]
          exact hw
        rcases r with e | pr
        · have hstep : bulk_item_step env user (succ, fail, errs, stc) (vid, vdata) =
              (succ, fail + 1, errs ++ [⟨vid, vdata.email, errStr e⟩],
               { st1 with manual_verifications := setKey st1.manual_verifications vid { w with provisioning_error := some (errStr e), provisioning_failed_at := some st1.now } }) := by
            simp only [bulk_item_step]
            rw [hsc]
            dsimp only
            rw [hP]
            dsimp only
            unfold updateAt
            rw [hl]
          rw [hstep]
          have hpend' : ∀ k, k ∈ rest.map Prod.fst →
              (lookupKey ({ st1 with manual_verifications := setKey st1.manual_verifications vid { w with provisioning_error := some (errStr e), provisioning_failed_at := some st1.now } } : Store).manual_verifications k).map (fun x => x.status) = some "pending" := by
            intro k hk
            have hkne : k ≠ vid := fun hEq => hvidnr (hEq ▸ hk)
            dsimp only
            rw [lookupKey_setKey_ne _ _ _ _ hkne, hmv1]
            exact hpend k (by simpa using Or.inr hk)
          have herrs' : ∀ er ∈ errs ++ [(⟨vid, vdata.email, errStr e⟩ : BulkItemErr)],
              (lookupKey ({ st1 with manual_verifications := setKey st1.manual_verifications vid { w with provisioning_error := some (errStr e), provisioning_failed_at := some st1.now } } : Store).manual_verifications er.verification_id).map (fun x => x.status) = some "pending" ∧
              er.verification_id ∉ rest.map Prod.fst := by
            intro er hm
            rcases List.mem_append.mp hm with hm | hm
            · have hne : er.verification_id ≠ vid := by
                intro hEq
                exact (herrs er hm).2 (by simp [hEq])
              refine ⟨?_, fun hin => (herrs er hm).2 (by simpa using Or.inr hin)⟩
              dsimp only
              rw [lookupKey_setKey_ne _ _ _ _ hne, hmv1]
              exact (herrs er hm).1
            · rcases List.mem_singleton.mp hm with rfl
              refine ⟨?_, hvidnr⟩
              dsimp only
              rw [lookupKey_setKey_self]
              simpa using hwst
          obtain ⟨g1, g2, g3⟩ := ih succ (fail + 1)
            (errs ++ [⟨vid, vdata.email, errStr e⟩]) _ hndr hpend' herrs'
          refine ⟨by omega, ?_, g3⟩
          simp only [List.length_append, List.length_singleton] at g2
          omega
        · have hstep : bulk_item_step env user (succ, fail, errs, stc) (vid, vdata) =
              (succ + 1, fail, errs,
               { st1 with manual_verifications := setKey st1.manual_verifications vid { w with status := "approved", reviewed_by := some user, reviewed_at := some st1.now, notes := "Bulk approved by " ++ user } }) := by
            simp only [bulk_item_step]
            rw [hsc]
            dsimp only
            rw [hP]
            dsimp only
            unfold updateAt
            rw [hl]
          rw [hstep]
          have hpend' : ∀ k, k ∈ rest.map Prod.fst →
              (lookupKey ({ st1 with manual_verifications := setKey st1.manual_verifications vid { w with status := "approved", reviewed_by := some user, reviewed_at := some st1.now, notes := "Bulk approved by " ++ user } } : Store).manual_verifications k).map (fun x => x.status) = some "pending" := by
            intro k hk
            have hkne : k ≠ vid := fun hEq => hvidnr (hEq ▸ hk)
            dsimp only
            rw [lookupKey_setKey_ne _ _ _ _ hkne, hmv1]
            exact hpend k (by simpa using Or.inr hk)
          have herrs' : ∀ er ∈ errs,
              (lookupKey ({ st1 with manual_verifications := setKey st1.manual_verifications vid { w with status := "approved", reviewed_by := some user, reviewed_at := some st1.now, notes := "Bulk approved by " ++ user } } : Store).manual_verifications er.verification_id).map (fun x => x.status) = some "pending" ∧
              er.verification_id ∉ rest.map Prod.fst := by
            intro er hm
            have hne : er.verification_id ≠ vid := by
              intro hEq
              exact (herrs er hm).2 (by simp [hEq])
            refine ⟨?_, fun hin => (herrs er hm).2 (by simpa using Or.inr hin)⟩
            dsimp only
            rw [lookupKey_setKey_ne _ _ _ _ hne, hmv1]
            exact (herrs er hm).1
          obtain ⟨g1, g2, g3⟩ := ih (succ + 1) fail errs _ hndr hpend' herrs'
          exact ⟨by omega, by omega, g3⟩

/-- C9: the bulk approval processes every pending auto-generated
verification, isolating failures: success and failure counters account for
every item (`success_count + fail_count = total_processed`, the total being
the snapshot size), each failure contributes exactly one error entry, and
every verification named in the error list still has status "pending" in
the final store — it is never marked approved. -/
theorem bulk_approve_aggregation (env : Env) (st : Store) (user : String)
    (hnd : (st.manual_verifications.map Prod.fst).Nodup) :
    ((bulk_approve_auto_generated_verifications env st user).1.success_count +
      (bulk_approve_auto_generated_verifications env st user).1.fail_count =
      (bulk_approve_auto_generated_verifications env st user).1.total_processed) ∧
    ((bulk_approve_auto_generated_verifications env st user).1.total_processed =
      (pendingAutoOf st).length) ∧
    ((bulk_approve_auto_generated_verifications env st user).1.errors.length =
      (bulk_approve_auto_generated_verifications env st user).1.fail_count) ∧
    (∀ er ∈ (bulk_approve_auto_generated_verifications env st user).1.errors,
      (lookupKey (bulk_approve_auto_generated_verifications env st user).2.manual_verifications
        er.verification_id).map (fun w => w.status) = some "pending") := by
  by_cases hlen : (pendingAutoOf st).length = 0
  · have hres : bulk_approve_auto_generated_verifications env st user =
        (⟨0, 0, 0, []⟩, st) := by
      simp only [bulk_approve_auto_generated_verifications]
      rw [if_pos hlen]
    rw [hres]
    exact ⟨rfl, hlen.symm, rfl, fun er hm => absurd hm (List.not_mem_nil er)⟩
  · have hndp : ((pendingAutoOf st).map Prod.fst).Nodup :=
      hnd.sublist ((List.filter_sublist _).map Prod.fst)
    have hpend0 : ∀ k, k ∈ (pendingAutoOf st).map Prod.fst →
        (lookupKey st.manual_verifications k).map (fun w => w.status) = some "pending" := by
      intro k hk
      rcases List.mem_map.mp hk with ⟨p, hp, hfst⟩
      rcases List.mem_filter.mp hp with ⟨hmem, hpred⟩
      have hst : p.2.status = "pending" := by
        have := (Bool.and_eq_true _ _).mp hpred
        exact beq_iff_eq.mp this.1
      have hlk : lookupKey st.manual_verifications k = some p.2 := by
        subst hfst
        rcases p with ⟨k1, v1⟩
        exact lookupKey_of_mem _ _ _ hnd hmem
      rw [hlk]
      simp [hst]
    obtain ⟨g1, g2, g3⟩ := bulk_fold_invariant env user (pendingAutoOf st)
      0 0 [] st hndp hpend0 (fun er hm => absurd hm (List.not_mem_nil er))
    have hres : bulk_approve_auto_generated_verifications env st user =
        (⟨((pendingAutoOf st).foldl (bulk_item_step env user) (0, 0, [], st)).1,
          ((pendingAutoOf st).foldl (bulk_item_step env user) (0, 0, [], st)).2.1,
          (pendingAutoOf st).length,
          ((pendingAutoOf st).foldl (bulk_item_step env user) (0, 0, [], st)).2.2.1⟩,
         { ((pendingAutoOf st).foldl (bulk_item_step env user) (0, 0, [], st)).2.2.2 with admin_actions := ((pendingAutoOf st).foldl (bulk_item_step env user) (0, 0, [], st)).2.2.2.admin_actions + 1 }) := by
      simp only [bulk_approve_auto_generated_verifications]
      rw [if_neg hlen]
    rw [hres]
    refine ⟨?_, rfl, ?_, ?_⟩
    · dsimp only
      omega
    · dsimp only
      simp only [List.length_nil] at g2
      omega
    · intro er hm
      dsimp only at hm ⊢
      exact g3 er hm

/-- The two pending auto-generated verifications of the C9 witness: the
first references the provisionable subscription `sub-1`, the second a
missing subscription, so its provisioning raises and it must stay
pending. -/
def mvBulk1 : VerificationRec := { mvPend with subscription_created := some "sub-1" }

def mvBulk2 : VerificationRec := { mvPend with email := "bob@example.com", subscription_created := some "sub-missing" }

def stBulk : Store := { stProv with
  manual_verifications := [("v1", mvBulk1), ("v2", mvBulk2)] }

/-- Witness for C9: one success, one isolated failure, counts adding up,
and the failed item still pending. -/
theorem bulk_approve_aggregation_witness :
    ((bulk_approve_auto_generated_verifications envBase stBulk "admin").1.success_count +
      (bulk_approve_auto_generated_verifications envBase stBulk "admin").1.fail_count =
      (bulk_approve_auto_generated_verifications envBase stBulk "admin").1.total_processed) ∧
    ((bulk_approve_auto_generated_verifications envBase stBulk "admin").1.total_processed =
      (pendingAutoOf stBulk).length) ∧
    ((bulk_approve_auto_generated_verifications envBase stBulk "admin").1.errors.length =
      (bulk_approve_auto_generated_verifications envBase stBulk "admin").1.fail_count) ∧
    (∀ er ∈ (bulk_approve_auto_generated_verifications envBase stBulk "admin").1.errors,
      (lookupKey (bulk_approve_auto_generated_verifications envBase stBulk "admin").2.manual_verifications
        er.verification_id).map (fun w => w.status) = some "pending") :=
  bulk_approve_aggregation envBase stBulk "admin" (by decide)

end R38
